import Mathlib

/-!
Verification of the Tecnam P2002JF performance-calculator core.

This file gives a shallow embedding, over exact rational/real arithmetic, of the
table-lookup-and-interpolation engine and the correction/orchestration layer of
the repository:

* `src/utils/interpolation.ts` — linear / trilinear interpolation primitives;
* `src/utils/performance-table.ts` (duplicated in `src/utils/pressure.ts`) —
  `getDistanceFromTable`, `getRateOfClimbFromTable`,
  `getCruisePerformanceFromTable`, `getCruisePerformanceFromTableByRpm`;
* `src/utils/wind.ts` — `calculateWindComponents`, `calculateDensityAltitude`,
  `calculateDensityRatio`, `convertKtasToKias`, `convertKiasToKtas`;
* `src/utils/pressure.ts` — `calculatePressureAltitude`;
* the corrections module (`getCorrectionFactors`, `applyCorrections`) and the
  orchestration layer (`calculatePerformance`, `calculateTakeoffRateOfClimb`,
  `calculateCruisePerformance`).

The static JSON datasets (`takeoff_distance.json`, `landing_distance.json`,
`takeoff_rate_of_climb.json`, `cruise_performance.json`) are external inputs of
the engine, loaded at startup; they are not part of the source tree.  All
definitions are therefore parametrised by a table value whose structure mirrors
the JSON schema, and the theorems quantify over tables (with hypotheses for the
schema invariants they need: non-emptiness, presence of the looked-up rows).

JavaScript `number` arithmetic is modelled by `ℚ` where the code is pure
rational arithmetic, and by `ℝ` where transcendental functions
(`cos`/`sin`/`exp`/`sqrt`) enter.  `Array.prototype.sort` on numbers is
modelled by `List.insertionSort (· ≤ ·)` (any stable ascending sort).  The
debug parameter of the TS functions only appends human-readable strings and a
structured numeric snapshot and is modelled in the orchestration layer by an
`Option` debug field; the string log is display-only and not modelled.
-/

namespace Tecnam

/-- `SegmentType` of `src/utils/types.ts`. -/
inductive SegmentType
| ground_roll
| over_50ft
deriving DecidableEq, Repr

/-- `CalculationType` of `src/utils/types.ts`. -/
inductive CalculationType
| takeoff
| landing
deriving DecidableEq, Repr

/-- `RunwaySurface` of `src/utils/types.ts`. -/
inductive RunwaySurface
| grass
| concrete
| asphalt
deriving DecidableEq, Repr

/-- The per-temperature value object of a table row (`distance_m`, or
`rate_of_climb_ft_per_min` in the rate-of-climb table): one value for each of
the five tabulated temperatures `{-25, 0, 15, 25, 50}`, which the code indexes
by the stringified temperature. -/
structure TempValues where
  tm25 : ℚ
  t0 : ℚ
  t15 : ℚ
  t25 : ℚ
  t50 : ℚ
deriving DecidableEq, Repr

/-- `row.distance_m[tempKey] || 0`: index the five-key record by a temperature;
a key other than the five tabulated temperatures is `undefined` in JS and the
`|| 0` fallback yields `0` (on a present numeric value, `v || 0 = v`, since
`0 || 0` is `0`). -/
def TempValues.valueAt (d : TempValues) (t : ℚ) : ℚ :=
  if t = -25 then d.tm25
  else if t = 0 then d.t0
  else if t = 15 then d.t15
  else if t = 25 then d.t25
  else if t = 50 then d.t50
  else 0

/-- A row of the takeoff/landing distance tables. -/
structure PerfRow where
  segment : SegmentType
  pressure_alt_ft : ℚ
  distance_m : TempValues
deriving DecidableEq, Repr

/-- One weight block of the distance tables. -/
structure WeightEntry where
  weight_kg : ℚ
  rows : List PerfRow
deriving DecidableEq, Repr

/-- Schema of `takeoff_distance.json` / `landing_distance.json`
(`PerformanceData` in `src/utils/types.ts`). -/
structure PerformanceData where
  weights : List WeightEntry
deriving DecidableEq, Repr

/-- `interpolate` of `src/utils/interpolation.ts`: linear interpolation with
the degenerate-axis guard `if (x2 === x1) return y1`. -/
def interpolate (x x1 x2 y1 y2 : ℚ) : ℚ :=
  if x2 = x1 then y1 else y1 + ((x - x1) / (x2 - x1)) * (y2 - y1)

/-- `trilinearInterpolate` of `src/utils/interpolation.ts`.  The TS function
receives the corner values as a nested array `values[w][pa][t]` and immediately
destructures it into `v111 .. v222` (`values[0][0][0] = v111`, `values[0][0][1]
= v112`, `values[0][1][0] = v121`, ...); we pass the eight destructured corners
directly.  Temperature is interpolated first, then pressure altitude, then
weight. -/
def trilinearInterpolate (weight pressureAlt temperature w1 w2 pa1 pa2 t1 t2 : ℚ)
    (v111 v112 v121 v122 v211 v212 v221 v222 : ℚ) : ℚ :=
  let c11 := interpolate temperature t1 t2 v111 v112
  let c12 := interpolate temperature t1 t2 v121 v122
  let c21 := interpolate temperature t1 t2 v211 v212
  let c22 := interpolate temperature t1 t2 v221 v222
  let c1 := interpolate pressureAlt pa1 pa2 c11 c12
  let c2 := interpolate pressureAlt pa1 pa2 c21 c22
  interpolate weight w1 w2 c1 c2

/-- `const availableTemps = [-25, 0, 15, 25, 50]`. -/
def availableTemps : List ℚ := [-25, 0, 15, 25, 50]

/-- `weights.map(w => w.weight_kg).sort((a, b) => a - b)`. -/
def availableWeights (data : PerformanceData) : List ℚ :=
  List.insertionSort (· ≤ ·) (data.weights.map (·.weight_kg))

/-- `weights[0].rows.filter(r => r.segment === segment).map(r =>
r.pressure_alt_ft).sort((a, b) => a - b)`: the pressure-altitude axis, read off
the first weight block.  (On an empty `weights` array the TS code would crash
on `undefined`; the model uses an empty block there, and the theorems that need
the axis assume `weights ≠ []`.) -/
def allPAs (data : PerformanceData) (segment : SegmentType) : List ℚ :=
  List.insertionSort (· ≤ ·)
    (((data.weights.headD ⟨0, []⟩).rows.filter
        (fun r => decide (r.segment = segment))).map (·.pressure_alt_ft))

/-- `availableWeights[availableWeights.length - 1]` (the table's maximum
tabulated weight). -/
def maxTableWeight (data : PerformanceData) : ℚ :=
  (availableWeights data).getLastD 0

/-- `availableWeights[0]` (the table's minimum tabulated weight). -/
def minTableWeight (data : PerformanceData) : ℚ :=
  (availableWeights data).headD 0

/-- `Math.max(minTableWeight, Math.min(maxExtrapolatedWeight, weight))` with
`maxExtrapolatedWeight = 600`. -/
def clampedWeightOf (data : PerformanceData) (weight : ℚ) : ℚ :=
  max (minTableWeight data) (min 600 weight)

/-- `Math.max(availableTemps[0], Math.min(availableTemps[length - 1], t))`. -/
def clampedTempOf (temperature : ℚ) : ℚ :=
  max (availableTemps.headD 0) (min (availableTemps.getLastD 0) temperature)

/-- `Math.max(allPAs[0], Math.min(allPAs[length - 1], pressureAlt))`. -/
def clampedPAOf (data : PerformanceData) (segment : SegmentType) (pressureAlt : ℚ) : ℚ :=
  max ((allPAs data segment).headD 0)
    (min ((allPAs data segment).getLastD 0) pressureAlt)

/-- The bracket-search loop used on each axis:
`for (i = 0; i < xs.length - 1; i++) if (xs[i] <= x && x <= xs[i+1]) { ...; break }`.
Returns the index of the first adjacent pair bracketing `x`, `none` when the
loop falls through (the bounds then keep their initial first/last defaults). -/
def bracketIdx : List ℚ → ℚ → Option ℕ
| a :: b :: rest, x =>
    if a ≤ x ∧ x ≤ b then some 0 else (bracketIdx (b :: rest) x).map (· + 1)
| _, _ => none

/-- Resolved bounds of one interpolation axis: the two bounding tabulated
values and their indices (`w1/w2/w1DataIdx/w2DataIdx`, `t1/t2/t1Idx/t2Idx`,
`pa1/pa2/pa1Idx/pa2Idx` in the TS code). -/
structure AxisBounds where
  lo : ℚ
  hi : ℚ
  loIdx : ℕ
  hiIdx : ℕ
deriving DecidableEq, Repr

/-- Weight-axis resolution of `getDistanceFromTable`: on an exact match both
bounds are the matched weight and both indices are
`weights.findIndex(w => w.weight_kg === exactWeight)`; otherwise the bracket
search runs over the sorted weights and the indices are recovered with
`findIndex` into the `weights` array (data order); if no bracket is found the
initial first/last defaults remain.  (JS `findIndex` returns `-1` on a miss and
the code would then crash indexing `weights[-1]`; `List.findIdx` returns the
length instead and the out-of-range read is modelled by a default block — both
situations are unreachable for the weights actually present.) -/
def weightBounds (data : PerformanceData) (cw : ℚ) (exactW : Option ℚ) : AxisBounds :=
  match exactW with
  | some ew =>
      let i := data.weights.findIdx (fun w => decide (w.weight_kg = ew))
      ⟨ew, ew, i, i⟩
  | none =>
      match bracketIdx (availableWeights data) cw with
      | some i =>
          let w1 := (availableWeights data).getD i 0
          let w2 := (availableWeights data).getD (i + 1) 0
          ⟨w1, w2, data.weights.findIdx (fun w => decide (w.weight_kg = w1)),
            data.weights.findIdx (fun w => decide (w.weight_kg = w2))⟩
      | none =>
          let w1 := (availableWeights data).headD 0
          let w2 := (availableWeights data).getLastD 0
          ⟨w1, w2, data.weights.findIdx (fun w => decide (w.weight_kg = w1)),
            data.weights.findIdx (fun w => decide (w.weight_kg = w2))⟩

/-- Temperature-axis resolution: exact index via
`availableTemps.findIndex(t => t === clampedTemp)`, else bracket search, else
the initial defaults `t1Idx = 0`, `t2Idx = availableTemps.length - 1`. -/
def tempBounds (ct : ℚ) : AxisBounds :=
  match availableTemps.findIdx? (fun t => decide (t = ct)) with
  | some i => ⟨availableTemps.getD i 0, availableTemps.getD i 0, i, i⟩
  | none =>
      match bracketIdx availableTemps ct with
      | some i => ⟨availableTemps.getD i 0, availableTemps.getD (i + 1) 0, i, i + 1⟩
      | none =>
          ⟨availableTemps.headD 0, availableTemps.getLastD 0, 0, availableTemps.length - 1⟩

/-- Pressure-altitude-axis resolution over a given sorted PA axis: exact index
via `findIndex`, else bracket search, else the initial defaults
`pa1Idx = 0`, `pa2Idx = availablePAs.length - 1`. -/
def paBounds (availPAs : List ℚ) (cpa : ℚ) : AxisBounds :=
  match availPAs.findIdx? (fun pa => decide (pa = cpa)) with
  | some i => ⟨availPAs.getD i 0, availPAs.getD i 0, i, i⟩
  | none =>
      match bracketIdx availPAs cpa with
      | some i => ⟨availPAs.getD i 0, availPAs.getD (i + 1) 0, i, i + 1⟩
      | none => ⟨availPAs.headD 0, availPAs.getLastD 0, 0, availPAs.length - 1⟩

/-- The PA axis recomputed inside the interpolation path of
`getDistanceFromTable` from the *resolved lower weight block*
(`weight1Data.rows.filter(...).map(...).sort(...)`). -/
def availablePAsAt (data : PerformanceData) (wIdx : ℕ) (segment : SegmentType) : List ℚ :=
  List.insertionSort (· ≤ ·)
    (((data.weights.getD wIdx ⟨0, []⟩).rows.filter
        (fun r => decide (r.segment = segment))).map (·.pressure_alt_ft))

/-- The corner getter `getValue(wDataIdx, paIdx, tIdx)` of
`getDistanceFromTable`: look up the row of weight block `wDataIdx` at
`availablePAs[paIdx]` for the segment; a missing row contributes the sentinel
`0`, otherwise the row's `distance_m[availableTemps[tIdx]] || 0`. -/
def cornerValue (data : PerformanceData) (segment : SegmentType) (availPAs : List ℚ)
    (wDataIdx paIdx tIdx : ℕ) : ℚ :=
  let weightData := data.weights.getD wDataIdx ⟨0, []⟩
  let targetPA := availPAs.getD paIdx 0
  match weightData.rows.find?
      (fun r => decide (r.segment = segment ∧ r.pressure_alt_ft = targetPA)) with
  | none => 0
  | some row => row.distance_m.valueAt (availableTemps.getD tIdx 0)

/-- The leading exact-match shortcut of `getDistanceFromTable` (lines 46–65 of
`src/utils/performance-table.ts`): when the clamped weight (never during
extrapolation), temperature and pressure altitude all exactly match tabulated
axis values, return the tabulated cell directly; `none` means fall through to
the rest of the function (also when the matched row is absent). -/
def exactShortcut (data : PerformanceData) (cw ct cpa : ℚ) (segment : SegmentType)
    (useExt : Bool) : Option ℚ :=
  let exactW : Option ℚ :=
    if useExt then none else (availableWeights data).find? (fun w => decide (w = cw))
  let exactT := availableTemps.find? (fun t => decide (t = ct))
  let exactP := (allPAs data segment).find? (fun pa => decide (pa = cpa))
  match exactW, exactT, exactP with
  | some ew, some et, some epa =>
      match data.weights.find? (fun w => decide (w.weight_kg = ew)) with
      | some weightData =>
          match weightData.rows.find?
              (fun r => decide (r.segment = segment ∧ r.pressure_alt_ft = epa)) with
          | some row => some (row.distance_m.valueAt et)
          | none => none
      | none => none
  | _, _, _ => none

/-- The interpolation path of `getDistanceFromTable` (everything after the
extrapolation branch): resolve the three axis bounds, take the secondary
all-axes-exact shortcut when applicable, otherwise gather the 2×2×2 corner
values and interpolate trilinearly. -/
def interpolateDistance (data : PerformanceData) (cw cpa ct : ℚ) (segment : SegmentType)
    (exactW : Option ℚ) : ℚ :=
  let wb := weightBounds data cw exactW
  let tb := tempBounds ct
  let availPAs := availablePAsAt data wb.loIdx segment
  let pb := paBounds availPAs cpa
  let secondShortcut : Option ℚ :=
    if exactW.isSome ∧ (availableTemps.findIdx? (fun t => decide (t = ct))).isSome ∧
        (availPAs.findIdx? (fun pa => decide (pa = cpa))).isSome then
      match (data.weights.getD wb.loIdx ⟨0, []⟩).rows.find?
          (fun r => decide (r.segment = segment ∧ r.pressure_alt_ft = pb.lo)) with
      | some row => some (row.distance_m.valueAt tb.lo)
      | none => none
    else none
  match secondShortcut with
  | some v => v
  | none =>
      trilinearInterpolate cw cpa ct wb.lo wb.hi pb.lo pb.hi tb.lo tb.hi
        (cornerValue data segment availPAs wb.loIdx pb.loIdx tb.loIdx)
        (cornerValue data segment availPAs wb.loIdx pb.loIdx tb.hiIdx)
        (cornerValue data segment availPAs wb.loIdx pb.hiIdx tb.loIdx)
        (cornerValue data segment availPAs wb.loIdx pb.hiIdx tb.hiIdx)
        (cornerValue data segment availPAs wb.hiIdx pb.loIdx tb.loIdx)
        (cornerValue data segment availPAs wb.hiIdx pb.loIdx tb.hiIdx)
        (cornerValue data segment availPAs wb.hiIdx pb.hiIdx tb.loIdx)
        (cornerValue data segment availPAs wb.hiIdx pb.hiIdx tb.hiIdx)

/-- `getDistanceFromTable(..., allowExtrapolation = false)`.  The TS function
calls itself exactly once, with extrapolation disabled, to obtain the 550 kg
and 580 kg anchor values; the recursion depth is therefore at most one and we
unroll it: this definition is the body with `allowExtrapolation = false`, in
which the extrapolation branch (guarded by `useExtrapolation &&
allowExtrapolation`) is unreachable, and is otherwise identical to
`getDistanceFromTable`. -/
def getDistanceNoExtra (data : PerformanceData) (weight pressureAlt temperature : ℚ)
    (segment : SegmentType) : ℚ :=
  let cw := clampedWeightOf data weight
  let ct := clampedTempOf temperature
  let cpa := clampedPAOf data segment pressureAlt
  let useExt : Bool := decide (maxTableWeight data < cw ∧ cw ≤ 600)
  match exactShortcut data cw ct cpa segment useExt with
  | some v => v
  | none =>
      let exactW : Option ℚ :=
        if useExt then none else (availableWeights data).find? (fun w => decide (w = cw))
      interpolateDistance data cw cpa ct segment exactW

/-- `getDistanceFromTable` of `src/utils/performance-table.ts` (the copy in
`src/utils/pressure.ts` is identical).  The dataset argument stands for
`takeoffData` or `landingData`, selected in TS by the `calculationType`
parameter; the debug argument is omitted (it only accumulates trace strings).
Weight is clamped to `[minTableWeight, 600]`, temperature to `[-25, 50]`,
pressure altitude to the PA axis range; an all-axes exact match returns the
tabulated cell; a clamped weight in `(maxTableWeight, 600]` with extrapolation
allowed linearly extrapolates from the 550 kg and 580 kg values obtained by the
non-extrapolating lookup at the clamped PA/temperature; otherwise the value is
trilinearly interpolated. -/
def getDistanceFromTable (data : PerformanceData) (weight pressureAlt temperature : ℚ)
    (segment : SegmentType) (allowExtrapolation : Bool) : ℚ :=
  let cw := clampedWeightOf data weight
  let ct := clampedTempOf temperature
  let cpa := clampedPAOf data segment pressureAlt
  let useExt : Bool := decide (maxTableWeight data < cw ∧ cw ≤ 600)
  match exactShortcut data cw ct cpa segment useExt with
  | some v => v
  | none =>
      if useExt && allowExtrapolation then
        let value550 := getDistanceNoExtra data 550 cpa ct segment
        let value580 := getDistanceNoExtra data 580 cpa ct segment
        value580 + (value580 - value550) * (cw - 580) / (580 - 550)
      else
        let exactW : Option ℚ :=
          if useExt then none else (availableWeights data).find? (fun w => decide (w = cw))
        interpolateDistance data cw cpa ct segment exactW

/-! ### List helper lemmas -/

theorem sorted_headD_le {l : List ℚ} (hs : l.Sorted (· ≤ ·)) {x : ℚ} (hx : x ∈ l)
    (d : ℚ) : l.headD d ≤ x := by
  cases l with
  | nil => cases hx
  | cons a tl =>
      rcases List.mem_cons.mp hx with h | h
      · simp [h]
      · exact (List.sorted_cons.mp hs).1 x h

theorem sorted_le_getLastD {l : List ℚ} :
    l.Sorted (· ≤ ·) → ∀ {x : ℚ}, x ∈ l → ∀ d : ℚ, x ≤ l.getLastD d := by
  induction l with
  | nil => intro _ x hx; cases hx
  | cons a tl ih =>
      intro hs x hx d
      cases tl with
      | nil =>
          rcases List.mem_cons.mp hx with h | h
          · simp [h]
          · cases h
      | cons b tl' =>
          have hs' : (b :: tl').Sorted (· ≤ ·) := (List.sorted_cons.mp hs).2
          rcases List.mem_cons.mp hx with h | h
          · have hab : a ≤ b := (List.sorted_cons.mp hs).1 b (by simp)
            have hb : b ≤ (b :: tl').getLastD a := ih hs' (by simp) a
            simpa [h, List.getLastD_cons] using le_trans hab hb
          · simpa [List.getLastD_cons] using ih hs' h a

theorem find?_decide_eq_self {l : List ℚ} {x : ℚ} (hx : x ∈ l) :
    l.find? (fun y => decide (y = x)) = some x := by
  induction l with
  | nil => cases hx
  | cons a tl ih =>
      by_cases hax : a = x
      · subst hax; simp [List.find?]
      · rcases List.mem_cons.mp hx with h | h
        · exact absurd h.symm hax
        · simpa [List.find?, hax] using ih h

theorem mem_availableWeights {data : PerformanceData} {x : ℚ} :
    x ∈ availableWeights data ↔ x ∈ data.weights.map (·.weight_kg) :=
  (List.perm_insertionSort (· ≤ ·) _).mem_iff

theorem sorted_availableWeights (data : PerformanceData) :
    (availableWeights data).Sorted (· ≤ ·) :=
  List.sorted_insertionSort (· ≤ ·) _

theorem sorted_allPAs (data : PerformanceData) (segment : SegmentType) :
    (allPAs data segment).Sorted (· ≤ ·) :=
  List.sorted_insertionSort (· ≤ ·) _

/-- Clamping a value already lying on a sorted axis is the identity. -/
theorem clamp_of_mem {l : List ℚ} (hs : l.Sorted (· ≤ ·)) {x : ℚ} (hx : x ∈ l)
    {hi : ℚ} (hhi : l.getLastD 0 ≤ hi) :
    max (l.headD 0) (min hi x) = x := by
  have h1 := sorted_headD_le hs hx 0
  have h2 := sorted_le_getLastD hs hx 0
  rw [min_eq_right (le_trans h2 hhi), max_eq_right h1]

/-- The clamp `max lo (min hi ·)` is idempotent (no ordering assumption on
`lo`, `hi` is needed). -/
theorem clamp_idem (lo hi x : ℚ) :
    max lo (min hi (max lo (min hi x))) = max lo (min hi x) := by
  rcases le_total lo hi with h | h
  · rcases le_total x lo with h1 | h1 <;> rcases le_total x hi with h2 | h2 <;>
      simp [min_def, max_def] <;> split_ifs <;> linarith
  · rcases le_total x lo with h1 | h1 <;> rcases le_total x hi with h2 | h2 <;>
      simp [min_def, max_def] <;> split_ifs <;> linarith

theorem clampedTempOf_idem (t : ℚ) : clampedTempOf (clampedTempOf t) = clampedTempOf t := by
  simpa [clampedTempOf] using clamp_idem (availableTemps.headD 0) (availableTemps.getLastD 0) t

theorem clampedPAOf_idem (data : PerformanceData) (segment : SegmentType) (pa : ℚ) :
    clampedPAOf data segment (clampedPAOf data segment pa) = clampedPAOf data segment pa := by
  simpa [clampedPAOf] using
    clamp_idem ((allPAs data segment).headD 0) ((allPAs data segment).getLastD 0) pa

/-- The lookup reads its pressure-altitude and temperature arguments only
through the clamps, so clamping them beforehand does not change the result. -/
theorem getDistanceNoExtra_clamp (data : PerformanceData) (w pa t : ℚ)
    (segment : SegmentType) :
    getDistanceNoExtra data w (clampedPAOf data segment pa) (clampedTempOf t) segment =
      getDistanceNoExtra data w pa t segment := by
  simp only [getDistanceNoExtra, clampedTempOf_idem, clampedPAOf_idem]

theorem getDistanceFromTable_clamp (data : PerformanceData) (w pa t : ℚ)
    (segment : SegmentType) (allowExtrapolation : Bool) :
    getDistanceFromTable data w (clampedPAOf data segment pa) (clampedTempOf t) segment
        allowExtrapolation =
      getDistanceFromTable data w pa t segment allowExtrapolation := by
  simp only [getDistanceFromTable, clampedTempOf_idem, clampedPAOf_idem]

/-! ### C1: exact grid points are returned verbatim -/

/-- C1.  For every input that exactly matches a tabulated grid point — the
weight is a tabulated weight of the table (and the table's maximum weight is at
most the 600 kg extrapolation ceiling, as in the shipped datasets whose maximum
is 580 kg), the temperature is one of `{-25, 0, 15, 25, 50}`, and the pressure
altitude is a tabulated PA of the requested segment — `getDistanceFromTable`
with extrapolation allowed returns exactly the `distance_m` value of that cell
(the cell being the one the code resolves: first weight block of that weight,
first row of that segment and PA), with no interpolation arithmetic applied. -/
theorem c1_exact_grid_point_lookup (data : PerformanceData) (w pa t : ℚ)
    (segment : SegmentType) (wd : WeightEntry) (row : PerfRow)
    (hw : w ∈ data.weights.map (·.weight_kg))
    (hmax : maxTableWeight data ≤ 600)
    (ht : t ∈ availableTemps)
    (hpa : pa ∈ allPAs data segment)
    (hfindw : data.weights.find? (fun e => decide (e.weight_kg = w)) = some wd)
    (hrow : wd.rows.find?
      (fun r => decide (r.segment = segment ∧ r.pressure_alt_ft = pa)) = some row) :
    getDistanceFromTable data w pa t segment true = row.distance_m.valueAt t := by
  have hsW := sorted_availableWeights data
  have hmemW : w ∈ availableWeights data := mem_availableWeights.mpr hw
  have hcw : clampedWeightOf data w = w := by
    have := clamp_of_mem hsW hmemW hmax
    simpa [clampedWeightOf, minTableWeight] using this
  have hct : clampedTempOf t = t := by
    have : (availableTemps.getLastD 0 : ℚ) ≤ 50 := by norm_num [availableTemps]
    have h := clamp_of_mem (l := availableTemps) (by norm_num [availableTemps]) ht this
    fin_cases ht <;> norm_num [clampedTempOf, availableTemps]
  have hcpa : clampedPAOf data segment pa = pa := by
    have := clamp_of_mem (sorted_allPAs data segment) hpa (le_refl _)
    simpa [clampedPAOf] using this
  have hnoext : decide (maxTableWeight data < w ∧ w ≤ 600) = false := by
    have hle : w ≤ maxTableWeight data := sorted_le_getLastD hsW hmemW 0
    simp only [decide_eq_false_iff_not]
    rintro ⟨hlt, -⟩
    exact absurd hle (not_le.mpr hlt)
  have hshort : exactShortcut data w t pa segment false =
      some (row.distance_m.valueAt t) := by
    simp only [exactShortcut, if_neg (by simp : ¬(false = true)), Bool.false_eq_true,
      if_false, find?_decide_eq_self hmemW, find?_decide_eq_self ht,
      find?_decide_eq_self hpa, hfindw, hrow]
  simp only [getDistanceFromTable, hcw, hct, hcpa, hnoext, hshort]

/-- A small concrete distance table with the schema of the shipped datasets
(two weight blocks, PA axis `{0, 2000}`, both segments, full temperature
coverage), used to instantiate the universally quantified theorems. -/
def sampleDistanceTable : PerformanceData :=
  ⟨[⟨550, [⟨.ground_roll, 0, ⟨200, 220, 240, 260, 300⟩⟩,
           ⟨.ground_roll, 2000, ⟨230, 250, 270, 290, 330⟩⟩,
           ⟨.over_50ft, 0, ⟨400, 420, 440, 460, 500⟩⟩,
           ⟨.over_50ft, 2000, ⟨430, 450, 470, 490, 530⟩⟩]⟩,
    ⟨580, [⟨.ground_roll, 0, ⟨260, 280, 320, 340, 380⟩⟩,
           ⟨.ground_roll, 2000, ⟨290, 310, 350, 370, 410⟩⟩,
           ⟨.over_50ft, 0, ⟨460, 480, 520, 540, 580⟩⟩,
           ⟨.over_50ft, 2000, ⟨490, 510, 550, 570, 610⟩⟩]⟩]⟩

/-- Witness for C1 at the concrete grid point (550 kg, 0 ft, 15 °C): all
hypotheses hold and the lookup returns the tabulated 240 m. -/
theorem c1_exact_grid_point_lookup_witness :
    (550 : ℚ) ∈ sampleDistanceTable.weights.map (·.weight_kg) ∧
    maxTableWeight sampleDistanceTable ≤ 600 ∧
    (15 : ℚ) ∈ availableTemps ∧
    (0 : ℚ) ∈ allPAs sampleDistanceTable .ground_roll ∧
    getDistanceFromTable sampleDistanceTable 550 0 15 .ground_roll true = 240 := by
  refine ⟨by norm_num [sampleDistanceTable], by norm_num [maxTableWeight,
    availableWeights, sampleDistanceTable, List.insertionSort, List.orderedInsert],
    by norm_num [availableTemps], by norm_num [allPAs, sampleDistanceTable,
    List.insertionSort, List.orderedInsert], ?_⟩
  have h := c1_exact_grid_point_lookup sampleDistanceTable 550 0 15 .ground_roll
    ⟨550, [⟨.ground_roll, 0, ⟨200, 220, 240, 260, 300⟩⟩,
           ⟨.ground_roll, 2000, ⟨230, 250, 270, 290, 330⟩⟩,
           ⟨.over_50ft, 0, ⟨400, 420, 440, 460, 500⟩⟩,
           ⟨.over_50ft, 2000, ⟨430, 450, 470, 490, 530⟩⟩]⟩
    ⟨.ground_roll, 0, ⟨200, 220, 240, 260, 300⟩⟩
    (by norm_num [sampleDistanceTable])
    (by norm_num [maxTableWeight, availableWeights, sampleDistanceTable,
      List.insertionSort, List.orderedInsert])
    (by norm_num [availableTemps])
    (by norm_num [allPAs, sampleDistanceTable, List.insertionSort, List.orderedInsert])
    (by rfl) (by rfl)
  simpa [TempValues.valueAt] using h

/-- With extrapolation disallowed the lookup is exactly the unrolled
non-extrapolating body: the extrapolation branch is never entered. -/
theorem getDistanceFromTable_false (data : PerformanceData) (w pa t : ℚ)
    (segment : SegmentType) :
    getDistanceFromTable data w pa t segment false = getDistanceNoExtra data w pa t segment := by
  simp only [getDistanceFromTable, getDistanceNoExtra, Bool.and_false, Bool.false_eq_true,
    if_false]

theorem clampedWeightOf_idem (data : PerformanceData) (w : ℚ) :
    clampedWeightOf data (clampedWeightOf data w) = clampedWeightOf data w := by
  simpa [clampedWeightOf] using clamp_idem (minTableWeight data) 600 w

/-- The lookup reads its weight argument only through the weight clamp. -/
theorem getDistanceFromTable_weight_clamp (data : PerformanceData) (w pa t : ℚ)
    (segment : SegmentType) (allowExtrapolation : Bool) :
    getDistanceFromTable data (clampedWeightOf data w) pa t segment allowExtrapolation =
      getDistanceFromTable data w pa t segment allowExtrapolation := by
  simp only [getDistanceFromTable, clampedWeightOf_idem]

theorem headD_le_getLastD_of_sorted {l : List ℚ} (hs : l.Sorted (· ≤ ·))
    (hne : l ≠ []) : l.headD 0 ≤ l.getLastD 0 := by
  obtain ⟨a, tl, rfl⟩ := List.exists_cons_of_ne_nil hne
  simpa using sorted_le_getLastD hs (List.mem_cons_self a tl) 0

theorem availableWeights_ne_nil {data : PerformanceData} (hne : data.weights ≠ []) :
    availableWeights data ≠ [] := by
  intro h
  have hperm := List.perm_insertionSort (fun a b : ℚ => a ≤ b) (data.weights.map (·.weight_kg))
  rw [availableWeights] at h
  rw [h] at hperm
  exact hne (List.map_eq_nil_iff.mp hperm.symm.eq_nil)

/-! ### C2: linear weight extrapolation above the table maximum -/

/-- C2.  For a table whose maximum tabulated weight is 580 kg (as in the
shipped datasets) and any weight in `(580, 600]`, the extrapolating lookup
returns `v580 + (v580 - v550) · (w - 580) / 30` where `v550` and `v580` are the
same lookup at 550 kg and 580 kg with extrapolation disabled; with
extrapolation disabled the lookup is always the non-extrapolating body (so the
two inner lookups cannot re-enter the extrapolation branch); and at exactly
580 kg the extrapolating and non-extrapolating lookups agree, and agree with
the extrapolation formula's value at 580 kg, so the extension is continuous. -/
theorem c2_weight_extrapolation (data : PerformanceData) (w pa t : ℚ)
    (segment : SegmentType)
    (hne : data.weights ≠ [])
    (hmax : maxTableWeight data = 580)
    (h1 : 580 < w) (h2 : w ≤ 600) :
    (getDistanceFromTable data w pa t segment true =
      getDistanceFromTable data 580 pa t segment false +
        (getDistanceFromTable data 580 pa t segment false -
          getDistanceFromTable data 550 pa t segment false) * (w - 580) / 30) ∧
    (∀ w' : ℚ, getDistanceFromTable data w' pa t segment false =
      getDistanceNoExtra data w' pa t segment) ∧
    (getDistanceFromTable data 580 pa t segment true =
      getDistanceFromTable data 580 pa t segment false) ∧
    (getDistanceFromTable data 580 pa t segment true =
      getDistanceFromTable data 580 pa t segment false +
        (getDistanceFromTable data 580 pa t segment false -
          getDistanceFromTable data 550 pa t segment false) * ((580 : ℚ) - 580) / 30) := by
  have hAWne : availableWeights data ≠ [] := availableWeights_ne_nil hne
  have hsW := sorted_availableWeights data
  have hminle : minTableWeight data ≤ 580 := by
    rw [← hmax]
    exact headD_le_getLastD_of_sorted hsW hAWne
  have hcw : clampedWeightOf data w = w := by
    rw [clampedWeightOf, min_eq_right h2, max_eq_right (le_trans hminle (le_of_lt h1))]
  have hcw580 : clampedWeightOf data (580 : ℚ) = 580 := by
    rw [clampedWeightOf, min_eq_right (by norm_num), max_eq_right hminle]
  have huse : decide (maxTableWeight data < w ∧ w ≤ 600) = true := by
    rw [hmax]; exact decide_eq_true ⟨h1, h2⟩
  have hnouse : decide (maxTableWeight data < (580 : ℚ) ∧ (580 : ℚ) ≤ 600) = false := by
    rw [hmax]; simp
  have hshort : ∀ ct cpa : ℚ, exactShortcut data w ct cpa segment true = none := by
    intro ct cpa
    rfl
  have hfalse : ∀ w' : ℚ, getDistanceFromTable data w' pa t segment false =
      getDistanceNoExtra data w' pa t segment :=
    fun w' => getDistanceFromTable_false data w' pa t segment
  have h580 : getDistanceFromTable data 580 pa t segment true =
      getDistanceFromTable data 580 pa t segment false := by
    simp only [getDistanceFromTable, hcw580, hnouse, Bool.false_and, Bool.false_eq_true,
      if_false]
  have hmain : getDistanceFromTable data w pa t segment true =
      getDistanceFromTable data 580 pa t segment false +
        (getDistanceFromTable data 580 pa t segment false -
          getDistanceFromTable data 550 pa t segment false) * (w - 580) / 30 := by
    have hv550 : getDistanceNoExtra data 550 (clampedPAOf data segment pa)
        (clampedTempOf t) segment = getDistanceFromTable data 550 pa t segment false := by
      rw [getDistanceNoExtra_clamp, hfalse]
    have hv580 : getDistanceNoExtra data 580 (clampedPAOf data segment pa)
        (clampedTempOf t) segment = getDistanceFromTable data 580 pa t segment false := by
      rw [getDistanceNoExtra_clamp, hfalse]
    conv_lhs => simp only [getDistanceFromTable]
    simp only [hcw, huse, hshort, Bool.true_and, if_true]
    rw [hv550, hv580]
    ring
  exact ⟨hmain, hfalse, h580, by rw [h580]; ring⟩

/-- Witness for C2 at 590 kg on the sample table: the hypotheses hold and the
extrapolating lookup equals the linear formula over the non-extrapolating
550 kg / 580 kg lookups. -/
theorem c2_weight_extrapolation_witness :
    sampleDistanceTable.weights ≠ [] ∧
    maxTableWeight sampleDistanceTable = 580 ∧
    (580 : ℚ) < 590 ∧ (590 : ℚ) ≤ 600 ∧
    getDistanceFromTable sampleDistanceTable 590 0 15 .ground_roll true =
      getDistanceFromTable sampleDistanceTable 580 0 15 .ground_roll false +
        (getDistanceFromTable sampleDistanceTable 580 0 15 .ground_roll false -
          getDistanceFromTable sampleDistanceTable 550 0 15 .ground_roll false) *
          ((590 : ℚ) - 580) / 30 := by
  have hmax : maxTableWeight sampleDistanceTable = 580 := by
    norm_num [maxTableWeight, availableWeights, sampleDistanceTable, List.insertionSort,
      List.orderedInsert]
  refine ⟨by simp [sampleDistanceTable], hmax, by norm_num, by norm_num, ?_⟩
  exact (c2_weight_extrapolation sampleDistanceTable 590 0 15 .ground_roll
    (by simp [sampleDistanceTable]) hmax (by norm_num) (by norm_num)).1

/-! ### C5: out-of-range inputs are silently clamped -/

theorem clampedWeightOf_high {data : PerformanceData} {w : ℚ} (h : 600 < w) :
    clampedWeightOf data w = clampedWeightOf data 600 := by
  simp only [clampedWeightOf, min_eq_left (le_of_lt h), min_self]

theorem clampedWeightOf_low {data : PerformanceData} {w : ℚ}
    (h : w < minTableWeight data) :
    clampedWeightOf data w = clampedWeightOf data (minTableWeight data) := by
  rcases le_total (minTableWeight data) 600 with hm | hm
  · rw [clampedWeightOf, clampedWeightOf, min_eq_right hm,
      min_eq_right (le_trans (le_of_lt h) hm), max_self,
      max_eq_left (le_of_lt h)]
  · rw [clampedWeightOf, clampedWeightOf,
      max_eq_left (le_trans (min_le_left _ _) hm), max_eq_left (le_trans (min_le_left _ _) hm)]

theorem clampedTempOf_low {t : ℚ} (h : t < -25) : clampedTempOf t = clampedTempOf (-25) := by
  have h1 : availableTemps.headD 0 = (-25 : ℚ) := by norm_num [availableTemps]
  have h2 : availableTemps.getLastD 0 = (50 : ℚ) := by norm_num [availableTemps]
  rw [clampedTempOf, clampedTempOf, h1, h2,
    min_eq_right (by linarith), min_eq_right (by norm_num),
    max_eq_left (le_of_lt h), max_self]

theorem clampedTempOf_high {t : ℚ} (h : 50 < t) : clampedTempOf t = clampedTempOf 50 := by
  have h1 : availableTemps.headD 0 = (-25 : ℚ) := by norm_num [availableTemps]
  have h2 : availableTemps.getLastD 0 = (50 : ℚ) := by norm_num [availableTemps]
  rw [clampedTempOf, clampedTempOf, h1, h2, min_eq_left (le_of_lt h), min_self]

theorem clampedPAOf_low {data : PerformanceData} {segment : SegmentType} {pa : ℚ}
    (h : pa < (allPAs data segment).headD 0) :
    clampedPAOf data segment pa = clampedPAOf data segment ((allPAs data segment).headD 0) := by
  rw [clampedPAOf, clampedPAOf]
  rcases le_total ((allPAs data segment).headD 0) ((allPAs data segment).getLastD 0) with hm | hm
  · rw [min_eq_right (by linarith), min_eq_right hm, max_eq_left (le_of_lt h), max_self]
  · rw [min_eq_left hm, max_eq_left (le_trans (min_le_left _ _) hm), max_eq_left hm]
theorem clampedPAOf_high {data : PerformanceData} {segment : SegmentType} {pa : ℚ}
    (h : (allPAs data segment).getLastD 0 < pa) :
    clampedPAOf data segment pa =
      clampedPAOf data segment ((allPAs data segment).getLastD 0) := by
  rw [clampedPAOf, clampedPAOf, min_eq_left (le_of_lt h), min_self]

/-- C5.  Out-of-range numeric inputs to the distance lookup are silently
clamped, never rejected (the function is total by construction): above 600 kg
the result is that of exactly 600 kg; below the minimum tabulated weight, that
of the minimum; outside `[-25, 50] °C`, that of the nearer bound; outside the
PA axis range, that of the nearer PA bound. -/
theorem c5_out_of_range_clamping (data : PerformanceData) (segment : SegmentType)
    (w pa t : ℚ) :
    (600 < w → getDistanceFromTable data w pa t segment true =
      getDistanceFromTable data 600 pa t segment true) ∧
    (w < minTableWeight data → getDistanceFromTable data w pa t segment true =
      getDistanceFromTable data (minTableWeight data) pa t segment true) ∧
    (t < -25 → getDistanceFromTable data w pa t segment true =
      getDistanceFromTable data w pa (-25) segment true) ∧
    (50 < t → getDistanceFromTable data w pa t segment true =
      getDistanceFromTable data w pa 50 segment true) ∧
    (pa < (allPAs data segment).headD 0 → getDistanceFromTable data w pa t segment true =
      getDistanceFromTable data w ((allPAs data segment).headD 0) t segment true) ∧
    ((allPAs data segment).getLastD 0 < pa → getDistanceFromTable data w pa t segment true =
      getDistanceFromTable data w ((allPAs data segment).getLastD 0) t segment true) := by
  refine ⟨fun h => ?_, fun h => ?_, fun h => ?_, fun h => ?_, fun h => ?_, fun h => ?_⟩
  · rw [← getDistanceFromTable_weight_clamp data w, clampedWeightOf_high h,
      getDistanceFromTable_weight_clamp]
  · rw [← getDistanceFromTable_weight_clamp data w, clampedWeightOf_low h,
      getDistanceFromTable_weight_clamp]
  · rw [← getDistanceFromTable_clamp data w pa t, clampedTempOf_low h,
      getDistanceFromTable_clamp]
  · rw [← getDistanceFromTable_clamp data w pa t, clampedTempOf_high h,
      getDistanceFromTable_clamp]
  · rw [← getDistanceFromTable_clamp data w pa t, clampedPAOf_low h,
      getDistanceFromTable_clamp]
  · rw [← getDistanceFromTable_clamp data w pa t, clampedPAOf_high h,
      getDistanceFromTable_clamp]

/-- Witness for C5 on the sample table: a 700 kg request (out of range above),
a -40 °C request (below) and a 5000 ft request (above the PA axis) are pinned
to the respective boundaries. -/
theorem c5_out_of_range_clamping_witness :
    ((600 : ℚ) < 700 ∧
      getDistanceFromTable sampleDistanceTable 700 0 15 .ground_roll true =
        getDistanceFromTable sampleDistanceTable 600 0 15 .ground_roll true) ∧
    ((-40 : ℚ) < -25 ∧
      getDistanceFromTable sampleDistanceTable 550 0 (-40) .ground_roll true =
        getDistanceFromTable sampleDistanceTable 550 0 (-25) .ground_roll true) ∧
    ((allPAs sampleDistanceTable .ground_roll).getLastD 0 < 5000 ∧
      getDistanceFromTable sampleDistanceTable 550 5000 15 .ground_roll true =
        getDistanceFromTable sampleDistanceTable 550
          ((allPAs sampleDistanceTable .ground_roll).getLastD 0) 15 .ground_roll true) := by
  have hpa : (allPAs sampleDistanceTable .ground_roll).getLastD 0 < (5000 : ℚ) := by
    norm_num [allPAs, sampleDistanceTable, List.insertionSort, List.orderedInsert]
  exact ⟨⟨by norm_num,
      (c5_out_of_range_clamping sampleDistanceTable .ground_roll 700 0 15).1 (by norm_num)⟩,
    ⟨by norm_num,
      (c5_out_of_range_clamping sampleDistanceTable .ground_roll 550 0 (-40)).2.2.1
        (by norm_num)⟩,
    ⟨hpa,
      (c5_out_of_range_clamping sampleDistanceTable .ground_roll 550 5000 15).2.2.2.2.2 hpa⟩⟩

/-! ### Rate-of-climb table (`getRateOfClimbFromTable` in `src/utils/pressure.ts`) -/

/-- A row of `takeoff_rate_of_climb.json`: rate of climb per temperature plus
the best-rate climb speed `vy_kias` recorded for the PA row. -/
structure RocRow where
  pressure_alt_ft : ℚ
  vy_kias : ℚ
  rate_of_climb_ft_per_min : TempValues
deriving DecidableEq, Repr

/-- One weight block of the rate-of-climb table. -/
structure RocWeightEntry where
  weight_kg : ℚ
  rows : List RocRow
deriving DecidableEq, Repr

/-- Schema of `takeoff_rate_of_climb.json` (`RateOfClimbData` in
`src/utils/types.ts`). -/
structure RateOfClimbData where
  weights : List RocWeightEntry
deriving DecidableEq, Repr

/-- `weights.map(w => w.weight_kg).sort((a, b) => a - b)`. -/
def rocAvailableWeights (data : RateOfClimbData) : List ℚ :=
  List.insertionSort (· ≤ ·) (data.weights.map (·.weight_kg))

/-- `weights[0].rows.map(r => r.pressure_alt_ft).sort((a, b) => a - b)` (all
rows, no segment filter in the rate-of-climb table). -/
def rocAllPAs (data : RateOfClimbData) : List ℚ :=
  List.insertionSort (· ≤ ·) ((data.weights.headD ⟨0, []⟩).rows.map (·.pressure_alt_ft))

def rocMaxTableWeight (data : RateOfClimbData) : ℚ :=
  (rocAvailableWeights data).getLastD 0

def rocMinTableWeight (data : RateOfClimbData) : ℚ :=
  (rocAvailableWeights data).headD 0

def rocClampedWeight (data : RateOfClimbData) (weight : ℚ) : ℚ :=
  max (rocMinTableWeight data) (min 600 weight)

/-- `allPAs.length > 0 ? Math.max(allPAs[0], Math.min(allPAs[last],
pressureAlt)) : pressureAlt`. -/
def rocClampedPA (data : RateOfClimbData) (pressureAlt : ℚ) : ℚ :=
  if 0 < (rocAllPAs data).length then
    max ((rocAllPAs data).headD 0) (min ((rocAllPAs data).getLastD 0) pressureAlt)
  else pressureAlt

/-- Weight-axis resolution of `getRateOfClimbFromTable`.  Unlike the distance
lookup, the indices here are positions in the *sorted* `availableWeights` list
(`indexOf(exactWeight)`, or the loop index), which the code then uses to index
the `weights` array directly; the initial defaults are `0` and
`availableWeights.length - 1`. -/
def rocWeightBounds (data : RateOfClimbData) (cw : ℚ) (useExt : Bool) : AxisBounds :=
  let aw := rocAvailableWeights data
  match (if useExt then none else aw.find? (fun w => decide (w = cw))) with
  | some ew =>
      let i := aw.findIdx (fun w => decide (w = ew))
      ⟨ew, ew, i, i⟩
  | none =>
      match bracketIdx aw cw with
      | some i => ⟨aw.getD i 0, aw.getD (i + 1) 0, i, i + 1⟩
      | none => ⟨aw.headD 0, aw.getLastD 0, 0, aw.length - 1⟩

/-- Corner getter of `getRateOfClimbFromTable`: rows are looked up by pressure
altitude only; a missing row contributes the sentinel `0`. -/
def rocCornerValue (data : RateOfClimbData) (availPAs : List ℚ)
    (wIdx paIdx tIdx : ℕ) : ℚ :=
  let weightData := data.weights.getD wIdx ⟨0, []⟩
  let targetPA := availPAs.getD paIdx 0
  match weightData.rows.find? (fun r => decide (r.pressure_alt_ft = targetPA)) with
  | none => 0
  | some row => row.rate_of_climb_ft_per_min.valueAt (availableTemps.getD tIdx 0)

/-- Climb-speed resolution of `getRateOfClimbFromTable`: the `vy_kias` of the
row of the resolved (lower) weight block at `pa1` — the exact PA row on an
exact match, the lower bounding PA row otherwise (the code's two branches are
literally identical) — defaulting to 66 kt when the row is absent. -/
def rocClimbSpeed (data : RateOfClimbData) (wIdx : ℕ) (pa1 : ℚ) : ℚ :=
  match (data.weights.getD wIdx ⟨0, []⟩).rows.find?
      (fun r => decide (r.pressure_alt_ft = pa1)) with
  | some row => row.vy_kias
  | none => 66

/-- The weight-block index resolved by `getRateOfClimbFromTable` (its
`w1DataIdx`). -/
def rocSelectedWeightIdx (data : RateOfClimbData) (weight : ℚ) : ℕ :=
  (rocWeightBounds data (rocClampedWeight data weight)
    (decide (rocMaxTableWeight data < rocClampedWeight data weight ∧
      rocClampedWeight data weight ≤ 600))).loIdx

/-- `getRateOfClimbFromTable` of `src/utils/pressure.ts`: trilinear
interpolation for the rate of climb (there is no extrapolation branch in this
function: above the tabulated maximum weight the initial first/last bounds
remain and the `interpolate` primitive extrapolates linearly), and the
climb-speed policy of `rocClimbSpeed`.  Returns `(rateOfClimb, climbSpeed)`. -/
def getRateOfClimbFromTable (data : RateOfClimbData) (weight pressureAlt temperature : ℚ) :
    ℚ × ℚ :=
  let cw := rocClampedWeight data weight
  let ct := clampedTempOf temperature
  let cpa := rocClampedPA data pressureAlt
  let useExt : Bool := decide (rocMaxTableWeight data < cw ∧ cw ≤ 600)
  let wb := rocWeightBounds data cw useExt
  let tb := tempBounds ct
  let availPAs := rocAllPAs data
  let pb := paBounds availPAs cpa
  let rateOfClimb := trilinearInterpolate cw cpa ct wb.lo wb.hi pb.lo pb.hi tb.lo tb.hi
    (rocCornerValue data availPAs wb.loIdx pb.loIdx tb.loIdx)
    (rocCornerValue data availPAs wb.loIdx pb.loIdx tb.hiIdx)
    (rocCornerValue data availPAs wb.loIdx pb.hiIdx tb.loIdx)
    (rocCornerValue data availPAs wb.loIdx pb.hiIdx tb.hiIdx)
    (rocCornerValue data availPAs wb.hiIdx pb.loIdx tb.loIdx)
    (rocCornerValue data availPAs wb.hiIdx pb.loIdx tb.hiIdx)
    (rocCornerValue data availPAs wb.hiIdx pb.hiIdx tb.loIdx)
    (rocCornerValue data availPAs wb.hiIdx pb.hiIdx tb.hiIdx)
  (rateOfClimb, rocClimbSpeed data wb.loIdx pb.lo)

/-! ### Index lemmas for axis resolution -/

theorem findIdx?_cons_decide (p : ℚ → Bool) (a : ℚ) (tl : List ℚ) :
    (a :: tl).findIdx? p = if p a then some 0 else (tl.findIdx? p).map (· + 1) := by
  simp [List.findIdx?_cons]

theorem findIdx?_decide_of_mem {l : List ℚ} {x : ℚ} (hx : x ∈ l) :
    ∃ i, l.findIdx? (fun y => decide (y = x)) = some i ∧ l.getD i 0 = x := by
  induction l with
  | nil => cases hx
  | cons a tl ih =>
      by_cases hax : a = x
      · exact ⟨0, by simp [findIdx?_cons_decide, hax], by simp [hax]⟩
      · rcases List.mem_cons.mp hx with h | h
        · exact absurd h.symm hax
        · obtain ⟨i, h1, h2⟩ := ih h
          exact ⟨i + 1, by simp [findIdx?_cons_decide, hax, h1], by simpa using h2⟩

theorem findIdx?_decide_of_not_mem {l : List ℚ} {x : ℚ} (hx : x ∉ l) :
    l.findIdx? (fun y => decide (y = x)) = none := by
  induction l with
  | nil => simp
  | cons a tl ih =>
      have hax : ¬(a = x) := fun h => hx (h ▸ List.mem_cons_self a tl)
      have htl : x ∉ tl := fun h => hx (List.mem_cons_of_mem a h)
      simp [findIdx?_cons_decide, hax, ih htl]

theorem sorted_getD_le {l : List ℚ} (hs : l.Sorted (· ≤ ·)) {i j : ℕ} (hij : i ≤ j)
    (hj : j < l.length) : l.getD i 0 ≤ l.getD j 0 := by
  have hi : i < l.length := lt_of_le_of_lt hij hj
  rw [List.getD_eq_getElem l 0 hi, List.getD_eq_getElem l 0 hj]
  exact hs.rel_get_of_le (a := ⟨i, hi⟩) (b := ⟨j, hj⟩) hij

theorem getD_mem_of_lt {l : List ℚ} {i : ℕ} (h : i < l.length) : l.getD i 0 ∈ l := by
  rw [List.getD_eq_getElem l 0 h]
  exact List.getElem_mem h

/-- The bracket search returns the first bracketing adjacent pair. -/
theorem bracketIdx_eq_of_first {l : List ℚ} {x : ℚ} :
    ∀ {i : ℕ}, i + 1 < l.length →
    l.getD i 0 ≤ x → x ≤ l.getD (i + 1) 0 →
    (∀ j, j < i → ¬(l.getD j 0 ≤ x ∧ x ≤ l.getD (j + 1) 0)) →
    bracketIdx l x = some i := by
  induction l with
  | nil => intro i hlen; simp at hlen
  | cons a tl ih =>
      intro i hlen hlo hhi hfirst
      cases tl with
      | nil => simp at hlen
      | cons b tl' =>
          cases i with
          | zero =>
              simp only [List.getD_cons_zero] at hlo
              simp only [List.getD_cons_succ, List.getD_cons_zero] at hhi
              simp [bracketIdx, hlo, hhi]
          | succ i' =>
              have hnotfirst : ¬(a ≤ x ∧ x ≤ b) := by
                have := hfirst 0 (Nat.succ_pos i')
                simpa using this
              have hrec : bracketIdx (b :: tl') x = some i' := by
                apply ih
                · simpa [Nat.succ_lt_succ_iff] using hlen
                · simpa using hlo
                · simpa using hhi
                · intro j hj
                  have := hfirst (j + 1) (Nat.succ_lt_succ hj)
                  simpa using this
              simp [bracketIdx, hnotfirst, hrec]

/-- Exact-match case of the PA-axis resolution: `pa1` is the matched value. -/
theorem paBounds_lo_of_mem {l : List ℚ} {x : ℚ} (hx : x ∈ l) :
    (paBounds l x).lo = x := by
  obtain ⟨i, h1, h2⟩ := findIdx?_decide_of_mem hx
  simp only [paBounds, h1]
  exact h2

/-- Strictly-between case of the PA-axis resolution: `pa1` is the lower
adjacent bound. -/
theorem paBounds_lo_of_between {l : List ℚ} (hs : l.Sorted (· ≤ ·)) {x : ℚ} {i : ℕ}
    (hlen : i + 1 < l.length)
    (hlo : l.getD i 0 < x) (hhi : x < l.getD (i + 1) 0) :
    (paBounds l x).lo = l.getD i 0 := by
  have hnm : x ∉ l := by
    intro hxl
    obtain ⟨⟨k, hk⟩, hget⟩ := List.mem_iff_get.mp hxl
    have hgetD : l.getD k 0 = x := by rw [List.getD_eq_getElem l 0 hk]; exact hget
    rcases le_or_lt k i with hki | hki
    · have hle := sorted_getD_le hs hki (Nat.lt_of_succ_lt hlen)
      rw [hgetD] at hle
      exact absurd (lt_of_le_of_lt hle hlo) (lt_irrefl x)
    · have hk1 : i + 1 ≤ k := hki
      have hle := sorted_getD_le hs hk1 hk
      rw [hgetD] at hle
      exact absurd (lt_of_lt_of_le hhi hle) (lt_irrefl x)
  have hnone : l.findIdx? (fun y => decide (y = x)) = none := findIdx?_decide_of_not_mem hnm
  have hfirst : ∀ j, j < i → ¬(l.getD j 0 ≤ x ∧ x ≤ l.getD (j + 1) 0) := by
    rintro j hj ⟨-, hxj⟩
    have hj1 : j + 1 ≤ i := hj
    have hle := sorted_getD_le hs hj1 (Nat.lt_of_succ_lt hlen)
    exact absurd (lt_of_le_of_lt (le_trans hxj hle) hlo) (lt_irrefl x)
  have hbr := bracketIdx_eq_of_first hlen (le_of_lt hlo) (le_of_lt hhi) hfirst
  simp only [paBounds, hnone, hbr]

/-! ### C7: climb-speed resolution policy -/

/-- C7.  The climb speed returned by `getRateOfClimbFromTable` is the
`vy_kias` recorded at the exactly matching pressure-altitude row of the
resolved (lower) weight block when the clamped pressure altitude is tabulated,
and the `vy_kias` recorded at the lower-PA bounding row when the clamped
pressure altitude lies strictly between two adjacent tabulated PAs — never the
upper row's value and never an interpolated value. -/
theorem c7_climb_speed_policy (data : RateOfClimbData) (w pa t : ℚ) :
    (∀ r : RocRow,
      rocClampedPA data pa ∈ rocAllPAs data →
      (data.weights.getD (rocSelectedWeightIdx data w) ⟨0, []⟩).rows.find?
          (fun row => decide (row.pressure_alt_ft = rocClampedPA data pa)) = some r →
      (getRateOfClimbFromTable data w pa t).2 = r.vy_kias) ∧
    (∀ (i : ℕ) (r : RocRow),
      i + 1 < (rocAllPAs data).length →
      (rocAllPAs data).getD i 0 < rocClampedPA data pa →
      rocClampedPA data pa < (rocAllPAs data).getD (i + 1) 0 →
      (data.weights.getD (rocSelectedWeightIdx data w) ⟨0, []⟩).rows.find?
          (fun row => decide (row.pressure_alt_ft = (rocAllPAs data).getD i 0)) = some r →
      (getRateOfClimbFromTable data w pa t).2 = r.vy_kias) := by
  have hsnd : (getRateOfClimbFromTable data w pa t).2 =
      rocClimbSpeed data (rocSelectedWeightIdx data w)
        (paBounds (rocAllPAs data) (rocClampedPA data pa)).lo := rfl
  constructor
  · intro r hmem hfind
    rw [hsnd, paBounds_lo_of_mem hmem]
    simp only [rocClimbSpeed, hfind]
  · intro i r hlen hlo hhi hfind
    have hsorted : (rocAllPAs data).Sorted (· ≤ ·) := List.sorted_insertionSort (· ≤ ·) _
    rw [hsnd, paBounds_lo_of_between hsorted hlen hlo hhi]
    simp only [rocClimbSpeed, hfind]

/-- A small concrete rate-of-climb table with the schema of
`takeoff_rate_of_climb.json`. -/
def sampleRocTable : RateOfClimbData :=
  ⟨[⟨550, [⟨0, 70, ⟨900, 850, 800, 760, 700⟩⟩, ⟨2000, 68, ⟨800, 750, 700, 660, 600⟩⟩]⟩,
    ⟨580, [⟨0, 69, ⟨850, 800, 750, 710, 650⟩⟩, ⟨2000, 67, ⟨750, 700, 650, 610, 550⟩⟩]⟩]⟩

/-- Witness for C7: on the sample table an exact PA match (0 ft) returns the
70 kt recorded at that row, and a PA strictly between the 0 ft and 2000 ft
rows (1000 ft) returns the lower row's 70 kt, not the upper row's 68 kt. -/
theorem c7_climb_speed_policy_witness :
    (rocClampedPA sampleRocTable 0 ∈ rocAllPAs sampleRocTable ∧
      (getRateOfClimbFromTable sampleRocTable 550 0 15).2 = 70) ∧
    ((0 : ℕ) + 1 < (rocAllPAs sampleRocTable).length ∧
      (rocAllPAs sampleRocTable).getD 0 0 < rocClampedPA sampleRocTable 1000 ∧
      rocClampedPA sampleRocTable 1000 < (rocAllPAs sampleRocTable).getD 1 0 ∧
      (getRateOfClimbFromTable sampleRocTable 550 1000 15).2 = 70) := by
  have hmem : rocClampedPA sampleRocTable 0 ∈ rocAllPAs sampleRocTable := by
    norm_num [rocClampedPA, rocAllPAs, sampleRocTable, List.insertionSort, List.orderedInsert]
  have hlen : (0 : ℕ) + 1 < (rocAllPAs sampleRocTable).length := by
    norm_num [rocAllPAs, sampleRocTable, List.insertionSort, List.orderedInsert]
  have hlo : (rocAllPAs sampleRocTable).getD 0 0 < rocClampedPA sampleRocTable 1000 := by
    norm_num [rocClampedPA, rocAllPAs, sampleRocTable, List.insertionSort, List.orderedInsert]
  have hhi : rocClampedPA sampleRocTable 1000 < (rocAllPAs sampleRocTable).getD 1 0 := by
    norm_num [rocClampedPA, rocAllPAs, sampleRocTable, List.insertionSort, List.orderedInsert]
  have h1 := (c7_climb_speed_policy sampleRocTable 550 0 15).1
    ⟨0, 70, ⟨900, 850, 800, 760, 700⟩⟩ hmem (by norm_num [rocSelectedWeightIdx,
      rocWeightBounds, rocClampedWeight, rocMinTableWeight, rocMaxTableWeight,
      rocAvailableWeights, rocClampedPA, rocAllPAs, sampleRocTable, List.insertionSort,
      List.orderedInsert, List.find?, List.findIdx])
  have h2 := (c7_climb_speed_policy sampleRocTable 550 1000 15).2
    0 ⟨0, 70, ⟨900, 850, 800, 760, 700⟩⟩ hlen hlo hhi (by norm_num [rocSelectedWeightIdx,
      rocWeightBounds, rocClampedWeight, rocMinTableWeight, rocMaxTableWeight,
      rocAvailableWeights, rocAllPAs, sampleRocTable, List.insertionSort,
      List.orderedInsert, List.find?, List.findIdx])
  exact ⟨⟨hmem, h1⟩, ⟨hlen, hlo, hhi, h2⟩⟩

/-! ### Cruise performance table (`src/utils/pressure.ts`) -/

/-- The `(ktas, fuel_flow_lph, power_percent)` triple a cruise row records for
one ISA condition. -/
structure CruisePerf where
  ktas : ℚ
  fuel_flow_lph : ℚ
  power_percent : ℚ
deriving DecidableEq, Repr

/-- A cruise row: one RPM setting with its performance under each of the three
ISA conditions. -/
structure CruiseRow where
  rpm : ℚ
  isa_minus_30 : CruisePerf
  isa : CruisePerf
  isa_plus_30 : CruisePerf
deriving DecidableEq, Repr

/-- One pressure-altitude slice of `cruise_performance.json`. -/
structure CruisePAEntry where
  pressure_alt_ft : ℚ
  rows : List CruiseRow
deriving DecidableEq, Repr

/-- Schema of `cruise_performance.json` (`CruisePerformanceData`). -/
structure CruisePerformanceData where
  pressure_altitudes : List CruisePAEntry
deriving DecidableEq, Repr

/-- The ISA-condition selector `'isa_minus_30' | 'isa' | 'isa_plus_30'`. -/
inductive IsaCondition
| isa_minus_30
| isa
| isa_plus_30
deriving DecidableEq, Repr

/-- `bestMatch[isaCondition]`. -/
def CruiseRow.perfAt (row : CruiseRow) : IsaCondition → CruisePerf
| .isa_minus_30 => row.isa_minus_30
| .isa => row.isa
| .isa_plus_30 => row.isa_plus_30

/-- ISA-condition classification of the cruise lookups: `isaTemp = 15 -
(PA/1000)*2`, deviation `≤ -20` → ISA-30, `≥ 20` → ISA+30, else ISA. -/
def isaConditionFor (pressureAlt temperature : ℚ) : IsaCondition :=
  let isaTemp := 15 - pressureAlt / 1000 * 2
  let tempDeviation := temperature - isaTemp
  if tempDeviation ≤ -20 then .isa_minus_30
  else if tempDeviation ≥ 20 then .isa_plus_30
  else .isa

/-- `pressureAltitudes.map(pa => pa.pressure_alt_ft).sort((a, b) => a - b)`. -/
def cruiseAvailablePAs (data : CruisePerformanceData) : List ℚ :=
  List.insertionSort (· ≤ ·) (data.pressure_altitudes.map (·.pressure_alt_ft))

/-- `Math.max(availablePAs[0], Math.min(availablePAs[last], pressureAlt))`. -/
def cruiseClampedPA (data : CruisePerformanceData) (pressureAlt : ℚ) : ℚ :=
  max ((cruiseAvailablePAs data).headD 0)
    (min ((cruiseAvailablePAs data).getLastD 0) pressureAlt)

/-- One step of the closest-PA loop: strict improvement updates the running
`(closestPA, minDiff)` pair. -/
def closestStep (x : ℚ) (b : ℚ × ℚ) (pa : ℚ) : ℚ × ℚ :=
  if |pa - x| < b.2 then (pa, |pa - x|) else b

/-- The closest-PA loop of the cruise lookups: start from `availablePAs[0]`
and keep the first strict improvement (ties keep the earlier, i.e. lower,
sorted PA). -/
def closestPA (xs : List ℚ) (x : ℚ) : ℚ :=
  (xs.foldl (closestStep x) (xs.headD 0, |xs.headD 0 - x|)).1

/-- PA-entry resolution of the cruise lookups: an exact `find?` on the clamped
PA, else a `find?` on the closest tabulated PA. -/
def findPAEntry (data : CruisePerformanceData) (cpa : ℚ) : Option CruisePAEntry :=
  match data.pressure_altitudes.find? (fun e => decide (e.pressure_alt_ft = cpa)) with
  | some e => some e
  | none =>
      data.pressure_altitudes.find?
        (fun e => decide (e.pressure_alt_ft = closestPA (cruiseAvailablePAs data) cpa))

/-- One step of the nearest-row loop (`diff < minDiff` updates `bestMatch`):
a `none` accumulator models the `bestMatch = null`/`minDiff = Infinity` start,
against which the first row always wins. -/
noncomputable def selectStep {α : Type} (key : α → ℝ) (target : ℝ)
    (acc : Option (α × ℝ)) (row : α) : Option (α × ℝ) :=
  match acc with
  | none => some (row, |key row - target|)
  | some (r, m) =>
      if |key row - target| < m then some (row, |key row - target|) else some (r, m)

/-- The nearest-row search of the cruise lookups, keyed by the row's tabulated
KTAS (under the resolved ISA condition) or by its RPM. -/
noncomputable def selectRowBy {α : Type} (key : α → ℝ) (target : ℝ) (rows : List α) :
    Option α :=
  (rows.foldl (selectStep key target) none).map (·.1)

/-- Result record of `getCruisePerformanceFromTable` (`rpm?` is optional). -/
structure CruiseLookupKtasResult where
  ktas : ℚ
  fuelConsumption : ℚ
  powerPercent : ℚ
  rpm : Option ℚ
deriving DecidableEq, Repr

/-- Result record of `getCruisePerformanceFromTableByRpm` (`rpm` is always a
number, `0` in the sentinel error returns). -/
structure CruiseLookupRpmResult where
  ktas : ℚ
  fuelConsumption : ℚ
  powerPercent : ℚ
  rpm : ℚ
deriving DecidableEq, Repr

/-- `getCruisePerformanceFromTable` of `src/utils/pressure.ts`: classify the
ISA condition, resolve the closest tabulated PA slice, pick the row whose
tabulated KTAS under that condition is nearest to the requested KTAS (first row
wins ties), and return its values verbatim.  The target is real-valued because
the KIAS input mode feeds it a converted airspeed. -/
noncomputable def getCruisePerformanceFromTable (data : CruisePerformanceData)
    (pressureAlt temperature : ℚ) (ktas : ℝ) : CruiseLookupKtasResult :=
  let cond := isaConditionFor pressureAlt temperature
  match findPAEntry data (cruiseClampedPA data pressureAlt) with
  | none => ⟨0, 0, 0, none⟩
  | some paData =>
      match selectRowBy (fun row => ((row.perfAt cond).ktas : ℝ)) ktas paData.rows with
      | none => ⟨0, 0, 0, none⟩
      | some row =>
          ⟨(row.perfAt cond).ktas, (row.perfAt cond).fuel_flow_lph,
            (row.perfAt cond).power_percent, some row.rpm⟩

/-- `getCruisePerformanceFromTableByRpm` of `src/utils/pressure.ts`: as above
but the nearest-row search compares the rows' RPM with the requested RPM. -/
noncomputable def getCruisePerformanceFromTableByRpm (data : CruisePerformanceData)
    (pressureAlt temperature : ℚ) (rpm : ℝ) : CruiseLookupRpmResult :=
  let cond := isaConditionFor pressureAlt temperature
  match findPAEntry data (cruiseClampedPA data pressureAlt) with
  | none => ⟨0, 0, 0, 0⟩
  | some paData =>
      match selectRowBy (fun row => ((row.rpm : ℚ) : ℝ)) rpm paData.rows with
      | none => ⟨0, 0, 0, 0⟩
      | some row =>
          ⟨(row.perfAt cond).ktas, (row.perfAt cond).fuel_flow_lph,
            (row.perfAt cond).power_percent, row.rpm⟩

/-- `r` is the first row of `rows` (in table order) attaining the minimal
absolute difference between `key` and `target`: every earlier row is strictly
worse, every row is at least as far. -/
def IsFirstMin {α : Type} (key : α → ℝ) (target : ℝ) (rows : List α) (r : α) : Prop :=
  ∃ pre post, rows = pre ++ r :: post ∧
    (∀ q ∈ pre, |key r - target| < |key q - target|) ∧
    (∀ q ∈ rows, |key r - target| ≤ |key q - target|)

theorem selectRow_go_spec {α : Type} (key : α → ℝ) (target : ℝ) :
    ∀ (rows : List α) (r0 : α),
    ∃ r, rows.foldl (selectStep key target) (some (r0, |key r0 - target|)) =
        some (r, |key r - target|) ∧
      ((r = r0 ∧ ∀ q ∈ rows, |key r0 - target| ≤ |key q - target|) ∨
       (∃ pre post, rows = pre ++ r :: post ∧ |key r - target| < |key r0 - target| ∧
         (∀ q ∈ pre, |key r - target| < |key q - target|) ∧
         (∀ q ∈ rows, |key r - target| ≤ |key q - target|))) := by
  intro rows
  induction rows with
  | nil => intro r0; exact ⟨r0, rfl, Or.inl ⟨rfl, by simp⟩⟩
  | cons a tl ih =>
      intro r0
      by_cases hc : |key a - target| < |key r0 - target|
      · have hstep : selectStep key target (some (r0, |key r0 - target|)) a =
            some (a, |key a - target|) := by simp [selectStep, hc]
        obtain ⟨r, hfold, hcase⟩ := ih a
        refine ⟨r, by simpa [List.foldl_cons, hstep] using hfold, Or.inr ?_⟩
        rcases hcase with ⟨hra, hall⟩ | ⟨pre, post, hsplit, hlt, hpre, hall⟩
        · subst hra
          exact ⟨[], tl, by simp, hc, by simp, by
            intro q hq
            rcases List.mem_cons.mp hq with h | h
            · simp [h]
            · exact hall q h⟩
        · refine ⟨a :: pre, post, by simp [hsplit], lt_trans hlt hc, ?_, ?_⟩
          · intro q hq
            rcases List.mem_cons.mp hq with h | h
            · simpa [h] using hlt
            · exact hpre q h
          · intro q hq
            rcases List.mem_cons.mp hq with h | h
            · simpa [h] using le_of_lt hlt
            · exact hall q h
      · have hstep : selectStep key target (some (r0, |key r0 - target|)) a =
            some (r0, |key r0 - target|) := by simp [selectStep, hc]
        obtain ⟨r, hfold, hcase⟩ := ih r0
        refine ⟨r, by simpa [List.foldl_cons, hstep] using hfold, ?_⟩
        rcases hcase with ⟨hra, hall⟩ | ⟨pre, post, hsplit, hlt, hpre, hall⟩
        · refine Or.inl ⟨hra, ?_⟩
          intro q hq
          rcases List.mem_cons.mp hq with h | h
          · simpa [h] using not_lt.mp hc
          · exact hall q h
        · refine Or.inr ⟨a :: pre, post, by simp [hsplit],
            hlt, ?_, ?_⟩
          · intro q hq
            rcases List.mem_cons.mp hq with h | h
            · exact h ▸ lt_of_lt_of_le hlt (not_lt.mp hc)
            · exact hpre q h
          · intro q hq
            rcases List.mem_cons.mp hq with h | h
            · exact h ▸ le_of_lt (lt_of_lt_of_le hlt (not_lt.mp hc))
            · exact hall q h

/-- The nearest-row search returns the first row minimising the key distance
(when the slice is non-empty). -/
theorem selectRowBy_spec {α : Type} (key : α → ℝ) (target : ℝ) (rows : List α)
    (hne : rows ≠ []) :
    ∃ r, selectRowBy key target rows = some r ∧ IsFirstMin key target rows r := by
  obtain ⟨a, tl, rfl⟩ := List.exists_cons_of_ne_nil hne
  have hstep : selectStep key target none a = some (a, |key a - target|) := by
    simp [selectStep]
  obtain ⟨r, hfold, hcase⟩ := selectRow_go_spec key target tl a
  refine ⟨r, ?_, ?_⟩
  · simp only [selectRowBy, List.foldl_cons, hstep, hfold]
    rfl
  · rcases hcase with ⟨hra, hall⟩ | ⟨pre, post, hsplit, hlt, hpre, hall⟩
    · subst hra
      refine ⟨[], tl, by simp, by simp, ?_⟩
      intro q hq
      rcases List.mem_cons.mp hq with h | h
      · simp [h]
      · exact hall q h
    · refine ⟨a :: pre, post, by simp [hsplit], ?_, ?_⟩
      · intro q hq
        rcases List.mem_cons.mp hq with h | h
        · simpa [h] using hlt
        · exact hpre q h
      · intro q hq
        rcases List.mem_cons.mp hq with h | h
        · simpa [h] using le_of_lt hlt
        · exact hall q h

theorem closest_go_spec (x : ℚ) :
    ∀ (xs : List ℚ) (b : ℚ),
    ∃ c, xs.foldl (closestStep x) (b, |b - x|) = (c, |c - x|) ∧ (c = b ∨ c ∈ xs) ∧
      |c - x| ≤ |b - x| ∧ ∀ q ∈ xs, |c - x| ≤ |q - x| := by
  intro xs
  induction xs with
  | nil => intro b; exact ⟨b, rfl, Or.inl rfl, le_refl _, by simp⟩
  | cons a tl ih =>
      intro b
      by_cases hc : |a - x| < |b - x|
      · have hstep : closestStep x (b, |b - x|) a = (a, |a - x|) := by
          simp [closestStep, hc]
        obtain ⟨c, hfold, hmem, hle, hall⟩ := ih a
        refine ⟨c, by simpa [List.foldl_cons, hstep] using hfold, ?_, le_of_lt
          (lt_of_le_of_lt hle hc), ?_⟩
        · rcases hmem with h | h
          · exact Or.inr (h ▸ List.mem_cons_self a tl)
          · exact Or.inr (List.mem_cons_of_mem a h)
        · intro q hq
          rcases List.mem_cons.mp hq with h | h
          · exact h ▸ hle
          · exact hall q h
      · have hstep : closestStep x (b, |b - x|) a = (b, |b - x|) := by
          simp [closestStep, hc]
        obtain ⟨c, hfold, hmem, hle, hall⟩ := ih b
        refine ⟨c, by simpa [List.foldl_cons, hstep] using hfold, ?_, hle, ?_⟩
        · rcases hmem with h | h
          · exact Or.inl h
          · exact Or.inr (List.mem_cons_of_mem a h)
        · intro q hq
          rcases List.mem_cons.mp hq with h | h
          · exact h ▸ le_trans hle (not_lt.mp hc)
          · exact hall q h

/-- The closest-PA loop returns a tabulated PA minimising the distance to the
query. -/
theorem closestPA_spec (xs : List ℚ) (hne : xs ≠ []) (x : ℚ) :
    closestPA xs x ∈ xs ∧ ∀ q ∈ xs, |closestPA xs x - x| ≤ |q - x| := by
  obtain ⟨a, tl, rfl⟩ := List.exists_cons_of_ne_nil hne
  obtain ⟨c, hfold, hmem, hle, hall⟩ := closest_go_spec x (a :: tl) a
  have hcp : closestPA (a :: tl) x = c := by
    simp only [closestPA, List.headD_cons]
    rw [hfold]
  rw [hcp]
  constructor
  · rcases hmem with h | h
    · exact h ▸ List.mem_cons_self a tl
    · exact h
  · exact hall

theorem mem_cruiseAvailablePAs {data : CruisePerformanceData} {x : ℚ} :
    x ∈ cruiseAvailablePAs data ↔ x ∈ data.pressure_altitudes.map (·.pressure_alt_ft) :=
  (List.perm_insertionSort (· ≤ ·) _).mem_iff

/-- The PA-entry resolution always succeeds on a non-empty table and returns
an entry whose tabulated PA minimises the distance to the clamped query. -/
theorem findPAEntry_spec (data : CruisePerformanceData)
    (hne : data.pressure_altitudes ≠ []) (cpa : ℚ) :
    ∃ e, findPAEntry data cpa = some e ∧ e ∈ data.pressure_altitudes ∧
      ∀ q ∈ data.pressure_altitudes,
        |e.pressure_alt_ft - cpa| ≤ |q.pressure_alt_ft - cpa| := by
  rcases hfind : data.pressure_altitudes.find? (fun e => decide (e.pressure_alt_ft = cpa))
    with - | e
  · have hPAne : cruiseAvailablePAs data ≠ [] := by
      intro h
      have hperm := List.perm_insertionSort (fun a b : ℚ => a ≤ b)
        (data.pressure_altitudes.map (·.pressure_alt_ft))
      rw [cruiseAvailablePAs] at h
      rw [h] at hperm
      exact hne (List.map_eq_nil_iff.mp hperm.symm.eq_nil)
    obtain ⟨hmem, hmin⟩ := closestPA_spec (cruiseAvailablePAs data) hPAne cpa
    have hmem' : closestPA (cruiseAvailablePAs data) cpa ∈
        data.pressure_altitudes.map (·.pressure_alt_ft) := mem_cruiseAvailablePAs.mp hmem
    obtain ⟨e0, he0, he0pa⟩ := List.mem_map.mp hmem'
    have hsome : (data.pressure_altitudes.find?
        (fun e => decide (e.pressure_alt_ft = closestPA (cruiseAvailablePAs data)
          cpa))).isSome = true :=
      List.find?_isSome.mpr ⟨e0, he0, by simp [he0pa]⟩
    obtain ⟨e1, he1⟩ := Option.isSome_iff_exists.mp hsome
    have he1pa : e1.pressure_alt_ft = closestPA (cruiseAvailablePAs data) cpa := by
      have := List.find?_some he1
      simpa using this
    refine ⟨e1, ?_, List.mem_of_find?_eq_some he1, ?_⟩
    · simp only [findPAEntry, hfind, he1]
    · intro q hq
      rw [he1pa]
      exact hmin q.pressure_alt_ft
        (mem_cruiseAvailablePAs.mpr (List.mem_map.mpr ⟨q, hq, rfl⟩))
  · have hepa : e.pressure_alt_ft = cpa := by
      have := List.find?_some hfind
      simpa using this
    refine ⟨e, by simp only [findPAEntry, hfind], List.mem_of_find?_eq_some hfind, ?_⟩
    intro q hq
    rw [hepa]
    simp

/-- The combined correctness property of the nearest-match cruise lookups at
one query: some tabulated PA slice `e` closest to the clamped pressure
altitude is selected, and within it both lookups return verbatim the fields of
the first row minimising the distance of its keyed value (KTAS under the
resolved ISA condition, or RPM) to the target. -/
def CruiseLookupCorrect (data : CruisePerformanceData) (pa temp : ℚ) (target : ℝ) : Prop :=
  ∃ e, e ∈ data.pressure_altitudes ∧
    (∀ q ∈ data.pressure_altitudes,
      |e.pressure_alt_ft - cruiseClampedPA data pa| ≤
        |q.pressure_alt_ft - cruiseClampedPA data pa|) ∧
    (∃ r, IsFirstMin (fun row => ((row.perfAt (isaConditionFor pa temp)).ktas : ℝ))
        target e.rows r ∧
      getCruisePerformanceFromTable data pa temp target =
        ⟨(r.perfAt (isaConditionFor pa temp)).ktas,
          (r.perfAt (isaConditionFor pa temp)).fuel_flow_lph,
          (r.perfAt (isaConditionFor pa temp)).power_percent, some r.rpm⟩) ∧
    (∃ r, IsFirstMin (fun row => ((row.rpm : ℚ) : ℝ)) target e.rows r ∧
      getCruisePerformanceFromTableByRpm data pa temp target =
        ⟨(r.perfAt (isaConditionFor pa temp)).ktas,
          (r.perfAt (isaConditionFor pa temp)).fuel_flow_lph,
          (r.perfAt (isaConditionFor pa temp)).power_percent, r.rpm⟩)

/-- C4.  The cruise lookups classify the ISA condition by the deviation from
the standard lapse-rate temperature (`≤ -20` → ISA-30, `≥ +20` → ISA+30, else
ISA), resolve the pressure altitude to the closest tabulated PA (no
bracketing/interpolation), select within that slice the row minimising the
absolute difference of its tabulated KTAS (under the ISA condition) or RPM to
the target — first row in table order on ties — and return that row's fields
verbatim. -/
theorem c4_cruise_nearest_row (data : CruisePerformanceData) (pa temp : ℚ) (target : ℝ)
    (hne : data.pressure_altitudes ≠ [])
    (hrows : ∀ e ∈ data.pressure_altitudes, e.rows ≠ []) :
    ((temp - (15 - pa / 1000 * 2) ≤ -20 → isaConditionFor pa temp = .isa_minus_30) ∧
     (20 ≤ temp - (15 - pa / 1000 * 2) → isaConditionFor pa temp = .isa_plus_30) ∧
     (-20 < temp - (15 - pa / 1000 * 2) → temp - (15 - pa / 1000 * 2) < 20 →
       isaConditionFor pa temp = .isa)) ∧
    CruiseLookupCorrect data pa temp target := by
  constructor
  · refine ⟨fun h => by simp [isaConditionFor, h], fun h => ?_, fun h1 h2 => ?_⟩
    · have h' : ¬(temp - (15 - pa / 1000 * 2) ≤ -20) := by linarith
      simp [isaConditionFor, h', h]
    · have h' : ¬(temp - (15 - pa / 1000 * 2) ≤ -20) := by linarith
      have h'' : ¬(temp - (15 - pa / 1000 * 2) ≥ 20) := by linarith
      simp [isaConditionFor, h', h'']
  · obtain ⟨e, hfind, hmem, hmin⟩ := findPAEntry_spec data hne (cruiseClampedPA data pa)
    obtain ⟨r1, hsel1, hfirst1⟩ := selectRowBy_spec
      (fun row => ((row.perfAt (isaConditionFor pa temp)).ktas : ℝ)) target e.rows
      (hrows e hmem)
    obtain ⟨r2, hsel2, hfirst2⟩ := selectRowBy_spec
      (fun row => ((row.rpm : ℚ) : ℝ)) target e.rows (hrows e hmem)
    refine ⟨e, hmem, hmin, ⟨r1, hfirst1, ?_⟩, ⟨r2, hfirst2, ?_⟩⟩
    · simp only [getCruisePerformanceFromTable, hfind, hsel1]
    · simp only [getCruisePerformanceFromTableByRpm, hfind, hsel2]

/-- A small concrete cruise table with the schema of
`cruise_performance.json`. -/
def sampleCruiseTable : CruisePerformanceData :=
  ⟨[⟨0, [⟨2000, ⟨95, 14, 55⟩, ⟨100, 15, 60⟩, ⟨105, 16, 65⟩⟩,
         ⟨2200, ⟨105, 17, 70⟩, ⟨110, 18, 75⟩, ⟨115, 19, 80⟩⟩]⟩,
    ⟨2000, [⟨2000, ⟨93, 13, 53⟩, ⟨98, 14, 58⟩, ⟨103, 15, 63⟩⟩,
            ⟨2200, ⟨103, 16, 68⟩, ⟨108, 17, 73⟩, ⟨113, 18, 78⟩⟩]⟩]⟩

/-- Witness for C4 on the sample cruise table at (0 ft, 15 °C, target 100). -/
theorem c4_cruise_nearest_row_witness :
    sampleCruiseTable.pressure_altitudes ≠ [] ∧
    (∀ e ∈ sampleCruiseTable.pressure_altitudes, e.rows ≠ []) ∧
    CruiseLookupCorrect sampleCruiseTable 0 15 100 := by
  have h1 : sampleCruiseTable.pressure_altitudes ≠ [] := by simp [sampleCruiseTable]
  have h2 : ∀ e ∈ sampleCruiseTable.pressure_altitudes, e.rows ≠ [] := by
    intro e he
    fin_cases he <;> simp
  exact ⟨h1, h2, (c4_cruise_nearest_row sampleCruiseTable 0 15 100 h1 h2).2⟩

/-! ### Wind components (`src/utils/wind.ts`) -/

/-- `while (angleDiff > 180) angleDiff -= 360`. -/
def reduceDown (x : ℚ) : ℚ :=
  if h : 180 < x then reduceDown (x - 360) else x
termination_by (⌈(x - 180) / 360⌉).toNat
decreasing_by
  have h1 : (0 : ℚ) < (x - 180) / 360 := div_pos (by linarith) (by norm_num)
  have h2 : ⌈(x - 360 - 180) / 360⌉ = ⌈(x - 180) / 360⌉ - 1 := by
    rw [show (x - 360 - 180) / 360 = (x - 180) / 360 - (1 : ℤ) by push_cast; ring]
    exact Int.ceil_sub_int _ _
  have h3 : 0 < ⌈(x - 180) / 360⌉ := Int.ceil_pos.mpr h1
  rw [h2]
  omega

/-- `while (angleDiff < -180) angleDiff += 360`. -/
def reduceUp (x : ℚ) : ℚ :=
  if h : x < -180 then reduceUp (x + 360) else x
termination_by (⌈(-180 - x) / 360⌉).toNat
decreasing_by
  have h1 : (0 : ℚ) < (-180 - x) / 360 := div_pos (by linarith) (by norm_num)
  have h2 : ⌈(-180 - (x + 360)) / 360⌉ = ⌈(-180 - x) / 360⌉ - 1 := by
    rw [show (-180 - (x + 360)) / 360 = (-180 - x) / 360 - (1 : ℤ) by push_cast; ring]
    exact Int.ceil_sub_int _ _
  have h3 : 0 < ⌈(-180 - x) / 360⌉ := Int.ceil_pos.mpr h1
  rw [h2]
  omega

/-- The two normalisation loops of `calculateWindComponents`, in source order:
first reduce while `> 180`, then raise while `< -180`. -/
def normalizeAngle (d : ℚ) : ℚ := reduceUp (reduceDown d)

theorem reduceDown_le (x : ℚ) : reduceDown x ≤ 180 := by
  induction x using reduceDown.induct with
  | case1 x h ih => rwa [reduceDown, dif_pos h]
  | case2 x h => rw [reduceDown, dif_neg h]; linarith

theorem reduceDown_gt_of_gt {x : ℚ} (h : 180 < x) : -180 < reduceDown x := by
  induction x using reduceDown.induct with
  | case1 x h' ih =>
      rw [reduceDown, dif_pos h']
      by_cases h2 : 180 < x - 360
      · exact ih h2
      · rw [reduceDown, dif_neg h2]; linarith
  | case2 x h' => exact absurd h h'

theorem reduceDown_eq_of_le {x : ℚ} (h : x ≤ 180) : reduceDown x = x := by
  rw [reduceDown, dif_neg (not_lt.mpr h)]

theorem reduceUp_ge (x : ℚ) : -180 ≤ reduceUp x := by
  induction x using reduceUp.induct with
  | case1 x h ih => rwa [reduceUp, dif_pos h]
  | case2 x h => rw [reduceUp, dif_neg h]; linarith

theorem reduceUp_lt_of_lt {x : ℚ} (h : x < -180) : reduceUp x < 180 := by
  induction x using reduceUp.induct with
  | case1 x h' ih =>
      rw [reduceUp, dif_pos h']
      by_cases h2 : x + 360 < -180
      · exact ih h2
      · rw [reduceUp, dif_neg h2]; linarith
  | case2 x h' => exact absurd h h'

theorem reduceUp_eq_of_ge {x : ℚ} (h : -180 ≤ x) : reduceUp x = x := by
  rw [reduceUp, dif_neg (not_lt.mpr h)]

/-- The normalisation loops land in the closed interval `[-180, 180]` (the
endpoint `-180` is reachable: an angle difference of exactly `-180` is left
unchanged). -/
theorem normalizeAngle_mem_Icc (d : ℚ) : normalizeAngle d ∈ Set.Icc (-180 : ℚ) 180 := by
  rw [normalizeAngle]
  rcases le_or_lt (-180) (reduceDown d) with h | h
  · rw [reduceUp_eq_of_ge h]
    exact ⟨h, reduceDown_le d⟩
  · exact ⟨reduceUp_ge _, le_of_lt (reduceUp_lt_of_lt h)⟩

/-- `WindComponents` of `src/utils/types.ts` (real-valued: the components are
products with `cos`/`sin`). -/
structure WindComponentsR where
  headwind : ℝ
  tailwind : ℝ
  crosswind : ℝ

/-- `calculateWindComponents` of `src/utils/wind.ts`: normalise the angle
difference, convert to radians, and resolve
`headwind > 0 ? headwind : 0` / `headwind < 0 ? |headwind| : 0` /
`|speed * sin|`. -/
noncomputable def calculateWindComponents (runwayDirection windDirection windSpeed : ℚ) :
    WindComponentsR :=
  let angleDiff := normalizeAngle (windDirection - runwayDirection)
  let angleRad : ℝ := (angleDiff : ℝ) * Real.pi / 180
  let headwind : ℝ := (windSpeed : ℝ) * Real.cos angleRad
  let crosswind : ℝ := |(windSpeed : ℝ) * Real.sin angleRad|
  { headwind := if 0 < headwind then headwind else 0
    tailwind := if headwind < 0 then |headwind| else 0
    crosswind := crosswind }

/-- C8 (amended).  The angle difference is normalised by repeated ±360°
adjustment into the *closed* interval `[-180, 180]` (the original claim's
half-open `(-180, 180]` fails at a raw difference of exactly `-180°`, which
the loops leave at `-180`), and the components are
`headwind = max 0 (speed·cos θ)`, `tailwind = max 0 (-(speed·cos θ))`,
`crosswind = |speed·sin θ|` of the normalised angle `θ` (in radians). -/
theorem c8_wind_components (r w s : ℚ) :
    normalizeAngle (w - r) ∈ Set.Icc (-180 : ℚ) 180 ∧
    (calculateWindComponents r w s).headwind =
      max 0 ((s : ℝ) * Real.cos ((normalizeAngle (w - r) : ℝ) * Real.pi / 180)) ∧
    (calculateWindComponents r w s).tailwind =
      max 0 (-((s : ℝ) * Real.cos ((normalizeAngle (w - r) : ℝ) * Real.pi / 180))) ∧
    (calculateWindComponents r w s).crosswind =
      |(s : ℝ) * Real.sin ((normalizeAngle (w - r) : ℝ) * Real.pi / 180)| := by
  refine ⟨normalizeAngle_mem_Icc _, ?_, ?_, rfl⟩
  · show (if 0 < (s : ℝ) * Real.cos ((normalizeAngle (w - r) : ℝ) * Real.pi / 180) then
        (s : ℝ) * Real.cos ((normalizeAngle (w - r) : ℝ) * Real.pi / 180) else 0) = _
    rcases lt_or_le 0 ((s : ℝ) * Real.cos ((normalizeAngle (w - r) : ℝ) * Real.pi / 180))
      with h | h
    · rw [if_pos h, max_eq_right (le_of_lt h)]
    · rw [if_neg (not_lt.mpr h), max_eq_left h]
  · show (if (s : ℝ) * Real.cos ((normalizeAngle (w - r) : ℝ) * Real.pi / 180) < 0 then
        |(s : ℝ) * Real.cos ((normalizeAngle (w - r) : ℝ) * Real.pi / 180)| else 0) = _
    rcases lt_or_le ((s : ℝ) * Real.cos ((normalizeAngle (w - r) : ℝ) * Real.pi / 180)) 0
      with h | h
    · rw [if_pos h, abs_of_neg h, max_eq_right (by linarith)]
    · rw [if_neg (not_lt.mpr h), max_eq_left (by linarith)]

/-- Counterexample to C8 as stated: at runway heading 180° and wind direction
0° the raw difference is `-180°`, the loops leave it unchanged, and `-180` is
not in the claimed half-open interval `(-180, 180]`. -/
theorem c8_counterexample :
    normalizeAngle ((0 : ℚ) - 180) = -180 ∧
    normalizeAngle ((0 : ℚ) - 180) ∉ Set.Ioc (-180 : ℚ) 180 := by
  have h0 : (0 : ℚ) - 180 = -180 := by norm_num
  have h1 : normalizeAngle ((0 : ℚ) - 180) = -180 := by
    rw [h0, normalizeAngle, reduceDown_eq_of_le (by norm_num),
      reduceUp_eq_of_ge (le_refl _)]
  exact ⟨h1, by rw [h1]; simp⟩

/-! ### Atmosphere module (`src/utils/pressure.ts`, `src/utils/wind.ts`) -/

/-- `calculatePressureAltitude`: `PA = elevation + (1013.25 - QNH) * 30`. -/
def calculatePressureAltitude (elevation qnh : ℚ) : ℚ :=
  elevation + (1013.25 - qnh) * 30

/-- `calculateDensityAltitude`: `DA = PA + 118.8 * (OAT - (15 - PA/1000*2))`. -/
def calculateDensityAltitude (pressureAltitude temperature : ℚ) : ℚ :=
  let isaTemperature := 15 - pressureAltitude / 1000 * 2
  let temperatureDeviation := temperature - isaTemperature
  pressureAltitude + 118.8 * temperatureDeviation

/-- `calculateDensityRatio`: barometric approximation
`(P/P0) * (T0/T)` with `P = P0 * exp(-(PA·0.3048) / 8434.5)`. -/
noncomputable def calculateDensityRatio (pressureAltitude temperature : ℝ) : ℝ :=
  let tempKelvin := temperature + 273.15
  let seaLevelTempKelvin : ℝ := 288.15
  let seaLevelPressure : ℝ := 1013.25
  let pressureAltitudeMeters := pressureAltitude * 0.3048
  let pressureAtAltitude := seaLevelPressure * Real.exp (-pressureAltitudeMeters / 8434.5)
  (pressureAtAltitude / seaLevelPressure) * (seaLevelTempKelvin / tempKelvin)

/-- `convertKtasToKias`: `KIAS = KTAS * sqrt(densityRatio)`. -/
noncomputable def convertKtasToKias (ktas pressureAltitude temperature : ℝ) : ℝ :=
  ktas * Real.sqrt (calculateDensityRatio pressureAltitude temperature)

/-- `convertKiasToKtas`: `KTAS = KIAS / sqrt(densityRatio)`. -/
noncomputable def convertKiasToKtas (kias pressureAltitude temperature : ℝ) : ℝ :=
  kias / Real.sqrt (calculateDensityRatio pressureAltitude temperature)

theorem calculateDensityRatio_pos {pa t : ℝ} (h : -273.15 < t) :
    0 < calculateDensityRatio pa t := by
  rw [calculateDensityRatio]
  have h1 : (0 : ℝ) < t + 273.15 := by linarith
  have h2 : (0 : ℝ) < Real.exp (-(pa * 0.3048) / 8434.5) := Real.exp_pos _
  positivity

/-- C10.  For every airspeed, pressure altitude, and temperature above
absolute zero (so the density ratio is positive), converting KIAS to KTAS and
back is the identity, exactly over the reals. -/
theorem c10_airspeed_roundtrip (x pa t : ℝ) (h : -273.15 < t) :
    convertKtasToKias (convertKiasToKtas x pa t) pa t = x := by
  have hpos : 0 < calculateDensityRatio pa t := calculateDensityRatio_pos h
  have hs : 0 < Real.sqrt (calculateDensityRatio pa t) := Real.sqrt_pos.mpr hpos
  rw [convertKtasToKias, convertKiasToKtas, div_mul_cancel₀ x (ne_of_gt hs)]

/-- Witness for C10 at 100 kt, 0 ft, 15 °C. -/
theorem c10_airspeed_roundtrip_witness :
    (-273.15 : ℝ) < 15 ∧ convertKtasToKias (convertKiasToKtas 100 0 15) 0 15 = 100 :=
  ⟨by norm_num, c10_airspeed_roundtrip 100 0 15 (by norm_num)⟩

/-! ### Correction pipeline (`getCorrectionFactors`, `applyCorrections`) -/

/-- `CalculationInputs` of `src/utils/types.ts`. -/
structure CalculationInputs where
  weight : ℚ
  runwaySurface : RunwaySurface
  windDirection : ℚ
  windSpeed : ℚ
  runwaySlope : ℚ
  temperature : ℚ
  runwayElevation : ℚ
  qnh : ℚ
  runwayDirection : ℚ

/-- `CorrectionFactors` of the corrections module. -/
structure CorrectionFactors where
  headwindPerKt : ℚ
  tailwindPerKt : ℚ
  pavedRunwayPercent : ℚ
  slopePercentPerSlope : ℚ
deriving DecidableEq, Repr

/-- `getCorrectionFactors`: fixed constants per operation type. -/
def getCorrectionFactors (calculationType : CalculationType) : CorrectionFactors :=
  { headwindPerKt := if calculationType = .takeoff then (-2.5 : ℚ) else -5
    tailwindPerKt := if calculationType = .takeoff then (10 : ℚ) else 11
    pavedRunwayPercent := if calculationType = .takeoff then (-6 : ℚ) else -2
    slopePercentPerSlope := if calculationType = .takeoff then (5 : ℚ) else -2.5 }

/-- The wind entry of `CorrectionInfo` (`type` is `'headwind' | 'tailwind' |
'none'`). -/
inductive WindCorrectionType
| headwind
| tailwind
| nowind
deriving DecidableEq, Repr

structure WindCorrection where
  type : WindCorrectionType
  value : ℝ
  correction : ℝ

structure SurfaceCorrection where
  type : RunwaySurface
  correctionPercent : ℚ
  correctionMeters : ℝ

structure SlopeCorrection where
  value : ℚ
  correctionPercent : ℚ
  correctionMeters : ℝ

/-- `CorrectionInfo` of `src/utils/types.ts` (numeric snapshot). -/
structure CorrectionInfo where
  wind : WindCorrection
  surface : SurfaceCorrection
  slope : SlopeCorrection

structure CorrectionsResult where
  groundRoll : ℝ
  over50ft : ℝ
  correctionsGroundRoll : CorrectionInfo
  correctionsOver50ft : CorrectionInfo

/-- `applyCorrections` of the corrections module: add the wind correction (a
positive headwind takes precedence, else a positive tailwind, else none),
multiply by the paved-surface factor on concrete/asphalt, always multiply by
the slope factor, clamp non-negative; the per-step contributions are recorded
for the debug snapshot. -/
noncomputable def applyCorrections (baseGroundRoll baseOver50ft : ℝ)
    (inputs : CalculationInputs) (windComponents : WindComponentsR)
    (factors : CorrectionFactors) : CorrectionsResult :=
  let windApplied : ℝ × ℝ × WindCorrection :=
    if 0 < windComponents.headwind then
      let windCorrection := windComponents.headwind * (factors.headwindPerKt : ℝ)
      (baseGroundRoll + windCorrection, baseOver50ft + windCorrection,
        ⟨.headwind, windComponents.headwind, windCorrection⟩)
    else if 0 < windComponents.tailwind then
      let windCorrection := windComponents.tailwind * (factors.tailwindPerKt : ℝ)
      (baseGroundRoll + windCorrection, baseOver50ft + windCorrection,
        ⟨.tailwind, windComponents.tailwind, windCorrection⟩)
    else (baseGroundRoll, baseOver50ft, ⟨.nowind, 0, 0⟩)
  let surfaceApplied : ℝ × ℝ × SurfaceCorrection × SurfaceCorrection :=
    if inputs.runwaySurface = .concrete ∨ inputs.runwaySurface = .asphalt then
      let surfaceCorrectionPercent := factors.pavedRunwayPercent
      let surfaceMultiplier : ℝ := 1 + (surfaceCorrectionPercent : ℝ) / 100
      (windApplied.1 * surfaceMultiplier, windApplied.2.1 * surfaceMultiplier,
        ⟨inputs.runwaySurface, surfaceCorrectionPercent,
          baseGroundRoll * |(surfaceCorrectionPercent : ℝ) / 100|⟩,
        ⟨inputs.runwaySurface, surfaceCorrectionPercent,
          baseOver50ft * |(surfaceCorrectionPercent : ℝ) / 100|⟩)
    else (windApplied.1, windApplied.2.1,
      ⟨inputs.runwaySurface, 0, 0⟩, ⟨inputs.runwaySurface, 0, 0⟩)
  let slopeCorrectionPercent := inputs.runwaySlope * factors.slopePercentPerSlope
  let slopeMultiplier : ℝ := 1 + (slopeCorrectionPercent : ℝ) / 100
  { groundRoll := max 0 (surfaceApplied.1 * slopeMultiplier)
    over50ft := max 0 (surfaceApplied.2.1 * slopeMultiplier)
    correctionsGroundRoll := ⟨windApplied.2.2, surfaceApplied.2.2.1,
      ⟨inputs.runwaySlope, slopeCorrectionPercent, baseGroundRoll * (slopeMultiplier - 1)⟩⟩
    correctionsOver50ft := ⟨windApplied.2.2, surfaceApplied.2.2.2,
      ⟨inputs.runwaySlope, slopeCorrectionPercent, baseOver50ft * (slopeMultiplier - 1)⟩⟩ }

/-- C3.  `applyCorrections` computes
`max 0 ((base + windTerm) · surfaceFactor · slopeFactor)` for both distances:
at most one of the head/tailwind terms applies (headwind takes precedence),
the surface factor is `1 + pavedRunwayPercent/100` only on concrete or
asphalt, and the slope factor `1 + (slope · slopeCoefficient)/100` always
applies.  In particular a 500 m base on a paved runway with the takeoff `-6 %`
surface coefficient, zero wind and zero slope yields 470 m. -/
theorem c3_apply_corrections_formula :
    (∀ (g o : ℝ) (inputs : CalculationInputs) (wind : WindComponentsR)
        (factors : CorrectionFactors),
      (applyCorrections g o inputs wind factors).groundRoll =
        max 0 ((g + (if 0 < wind.headwind then wind.headwind * (factors.headwindPerKt : ℝ)
              else if 0 < wind.tailwind then wind.tailwind * (factors.tailwindPerKt : ℝ)
              else 0)) *
          (if inputs.runwaySurface = .concrete ∨ inputs.runwaySurface = .asphalt then
            1 + (factors.pavedRunwayPercent : ℝ) / 100 else 1) *
          (1 + ((inputs.runwaySlope * factors.slopePercentPerSlope : ℚ) : ℝ) / 100)) ∧
      (applyCorrections g o inputs wind factors).over50ft =
        max 0 ((o + (if 0 < wind.headwind then wind.headwind * (factors.headwindPerKt : ℝ)
              else if 0 < wind.tailwind then wind.tailwind * (factors.tailwindPerKt : ℝ)
              else 0)) *
          (if inputs.runwaySurface = .concrete ∨ inputs.runwaySurface = .asphalt then
            1 + (factors.pavedRunwayPercent : ℝ) / 100 else 1) *
          (1 + ((inputs.runwaySlope * factors.slopePercentPerSlope : ℚ) : ℝ) / 100))) ∧
    (applyCorrections 500 800 ⟨550, .asphalt, 0, 0, 0, 15, 0, 1013.25, 0⟩ ⟨0, 0, 0⟩
      (getCorrectionFactors .takeoff)).groundRoll = 470 := by
  constructor
  · intro g o inputs wind factors
    constructor <;>
      · simp only [applyCorrections]
        split_ifs <;> ring_nf
  · simp only [applyCorrections, getCorrectionFactors]
    norm_num

/-! ### Orchestration layer (`calculations` module, `src/unnamed/part_004`) -/

/-- JavaScript `Math.round`: nearest integer, halves toward `+∞`. -/
noncomputable def jsRound (x : ℝ) : ℤ := ⌊x + 1 / 2⌋

/-- `Math.round(x * 10) / 10` (one-decimal rounding of the cruise speeds). -/
noncomputable def roundTo1 (x : ℝ) : ℝ := ((jsRound (x * 10) : ℤ) : ℝ) / 10

/-- The structured part of the takeoff/landing debug payload (the string log is
display-only and not modelled). -/
structure PerfDebug where
  groundRoll : CorrectionInfo
  over50ft : CorrectionInfo

/-- `CalculationResults` of `src/utils/types.ts` (rounded distances). -/
structure CalculationResults where
  pressureAltitude : ℚ
  windComponents : WindComponentsR
  groundRoll : ℤ
  over50ft : ℤ
  baseGroundRoll : ℤ
  baseOver50ft : ℤ
  debug : Option PerfDebug

/-- `calculatePerformance`: pressure altitude → wind components → base table
lookups (the dataset is selected by the calculation type) → correction
pipeline → integer rounding; the debug flag only attaches the structured
snapshot. -/
noncomputable def calculatePerformance (takeoffData landingData : PerformanceData)
    (inputs : CalculationInputs) (calculationType : CalculationType)
    (includeDebug : Bool) : CalculationResults :=
  let data := if calculationType = .takeoff then takeoffData else landingData
  let pressureAltitude := calculatePressureAltitude inputs.runwayElevation inputs.qnh
  let windComponents := calculateWindComponents inputs.runwayDirection inputs.windDirection
    inputs.windSpeed
  let baseGroundRoll := getDistanceFromTable data inputs.weight pressureAltitude
    inputs.temperature .ground_roll true
  let baseOver50ft := getDistanceFromTable data inputs.weight pressureAltitude
    inputs.temperature .over_50ft true
  let factors := getCorrectionFactors calculationType
  let c := applyCorrections (baseGroundRoll : ℝ) (baseOver50ft : ℝ) inputs windComponents
    factors
  { pressureAltitude := pressureAltitude
    windComponents := windComponents
    groundRoll := jsRound c.groundRoll
    over50ft := jsRound c.over50ft
    baseGroundRoll := jsRound (baseGroundRoll : ℝ)
    baseOver50ft := jsRound (baseOver50ft : ℝ)
    debug := if includeDebug then some ⟨c.correctionsGroundRoll, c.correctionsOver50ft⟩
      else none }

/-- `RateOfClimbInputs` of `src/utils/types.ts`. -/
structure RateOfClimbInputs where
  weight : ℚ
  elevation : ℚ
  temperature : ℚ
  qnh : ℚ

/-- The structured part of the rate-of-climb debug payload (clamped inputs). -/
structure RocDebug where
  clampedWeight : ℚ
  clampedPressureAlt : ℚ
  clampedTemperature : ℚ

/-- `RateOfClimbResults` of `src/utils/types.ts`. -/
structure RateOfClimbResults where
  pressureAltitude : ℚ
  rateOfClimb : ℤ
  baseRateOfClimb : ℤ
  climbSpeed : ℚ
  debug : Option RocDebug

/-- `calculateTakeoffRateOfClimb`: pressure altitude → table lookup → integer
rounding; no correction pipeline applies. -/
noncomputable def calculateTakeoffRateOfClimb (data : RateOfClimbData)
    (inputs : RateOfClimbInputs) (includeDebug : Bool) : RateOfClimbResults :=
  let pressureAltitude := calculatePressureAltitude inputs.elevation inputs.qnh
  let r := getRateOfClimbFromTable data inputs.weight pressureAltitude inputs.temperature
  { pressureAltitude := pressureAltitude
    rateOfClimb := jsRound (r.1 : ℝ)
    baseRateOfClimb := jsRound (r.1 : ℝ)
    climbSpeed := r.2
    debug := if includeDebug then
      some ⟨rocClampedWeight data inputs.weight, rocClampedPA data pressureAltitude,
        clampedTempOf inputs.temperature⟩
      else none }

/-- `CruiseInputMode` of `src/utils/types.ts`. -/
inductive CruiseInputMode
| kias
| ktas
| rpm
deriving DecidableEq, Repr

/-- `CruiseInputs` of `src/utils/types.ts`: the three mode-specific fields are
optional. -/
structure CruiseInputs where
  elevation : ℚ
  temperature : ℚ
  qnh : ℚ
  inputMode : CruiseInputMode
  kias : Option ℚ
  ktas : Option ℚ
  rpm : Option ℚ

/-- The structured part of the cruise debug payload. -/
structure CruiseDebug where
  pressureAltitude : ℚ
  densityAltitude : ℚ
  densityRatio : ℝ
  isaCondition : String

/-- `CruiseResults` of `src/utils/types.ts`. -/
structure CruiseResults where
  pressureAltitude : ℚ
  densityAltitude : ℚ
  ktas : ℝ
  kias : ℝ
  fuelConsumption : ℚ
  powerPercent : ℚ
  rpm : Option ℚ
  debug : Option CruiseDebug

/-- The mode-specific field `calculateCruisePerformance` requires. -/
def cruiseModeField (inputs : CruiseInputs) : Option ℚ :=
  match inputs.inputMode with
  | .rpm => inputs.rpm
  | .kias => inputs.kias
  | .ktas => inputs.ktas

/-- `calculateCruisePerformance` of the calculations module.  The TS guards
are JavaScript truthiness checks (`if (!inputs.rpm) throw ...`), which reject
both a missing field and a field equal to `0`; this is modelled by
`(field).getD 0 = 0`.  Otherwise the function converts between KIAS/KTAS as
the mode requires, performs the table lookup, and rounds the speeds to one
decimal; the debug flag only attaches the structured snapshot. -/
noncomputable def calculateCruisePerformance (data : CruisePerformanceData)
    (inputs : CruiseInputs) (includeDebug : Bool) : Except String CruiseResults :=
  let pressureAltitude := calculatePressureAltitude inputs.elevation inputs.qnh
  let densityAltitude := calculateDensityAltitude pressureAltitude inputs.temperature
  let densityRatio := calculateDensityRatio (pressureAltitude : ℝ) (inputs.temperature : ℝ)
  let isaTemp := 15 - pressureAltitude / 1000 * 2
  let tempDeviation := inputs.temperature - isaTemp
  let isaCondition : String :=
    if tempDeviation ≤ -20 then ("ISA-30")
    else if tempDeviation ≥ 20 then ("ISA+30")
    else ("ISA")
  let mkDebug : Option CruiseDebug :=
    if includeDebug then some ⟨pressureAltitude, densityAltitude, densityRatio, isaCondition⟩
    else none
  match inputs.inputMode with
  | .rpm =>
      if (inputs.rpm).getD 0 = 0 then
        Except.error ("RPM is required when input mode is RPM")
      else
        let r := getCruisePerformanceFromTableByRpm data pressureAltitude
          inputs.temperature (((inputs.rpm).getD 0 : ℚ) : ℝ)
        let calculatedKtas : ℝ := (r.ktas : ℝ)
        let inputKias := convertKtasToKias calculatedKtas (pressureAltitude : ℝ)
          (inputs.temperature : ℝ)
        Except.ok ⟨pressureAltitude, densityAltitude, roundTo1 calculatedKtas,
          roundTo1 inputKias, r.fuelConsumption, r.powerPercent, some r.rpm, mkDebug⟩
  | .kias =>
      if (inputs.kias).getD 0 = 0 then
        Except.error ("KIAS is required when input mode is KIAS")
      else
        let calculatedKtas := convertKiasToKtas (((inputs.kias).getD 0 : ℚ) : ℝ)
          (pressureAltitude : ℝ) (inputs.temperature : ℝ)
        let inputKias : ℝ := (((inputs.kias).getD 0 : ℚ) : ℝ)
        let r := getCruisePerformanceFromTable data pressureAltitude inputs.temperature
          calculatedKtas
        Except.ok ⟨pressureAltitude, densityAltitude, roundTo1 calculatedKtas,
          roundTo1 inputKias, r.fuelConsumption, r.powerPercent, r.rpm, mkDebug⟩
  | .ktas =>
      if (inputs.ktas).getD 0 = 0 then
        Except.error ("KTAS is required when input mode is KTAS")
      else
        let calculatedKtas : ℝ := (((inputs.ktas).getD 0 : ℚ) : ℝ)
        let inputKias := convertKtasToKias calculatedKtas (pressureAltitude : ℝ)
          (inputs.temperature : ℝ)
        let r := getCruisePerformanceFromTable data pressureAltitude inputs.temperature
          calculatedKtas
        Except.ok ⟨pressureAltitude, densityAltitude, roundTo1 calculatedKtas,
          roundTo1 inputKias, r.fuelConsumption, r.powerPercent, r.rpm, mkDebug⟩

/-! ### C6: error behaviour of the cruise entry point -/

/-- C6 (amended).  `calculateCruisePerformance` signals an error if and only
if the mode-required field is missing *or zero*: the TS guards are JavaScript
truthiness checks, so a supplied value of `0` is rejected exactly like a
missing one (this is the one correction to the claim); any input whose
mode-required field is present and non-zero always yields a result, with no
other error path. -/
theorem c6_error_iff_field_falsy (data : CruisePerformanceData) (inputs : CruiseInputs)
    (includeDebug : Bool) :
    (∃ e, calculateCruisePerformance data inputs includeDebug = Except.error e) ↔
      (cruiseModeField inputs).getD 0 = 0 := by
  cases hm : inputs.inputMode <;>
    simp only [calculateCruisePerformance, cruiseModeField, hm] <;>
    split_ifs with h <;> simp [h]

/-- Counterexample to C6 as stated: an input that *supplies* the RPM field
(with value `0`) still signals the missing-RPM error, because the guard is a
truthiness check. -/
theorem c6_counterexample :
    (CruiseInputs.mk 0 15 1013.25 .rpm none none (some 0)).rpm.isSome = true ∧
    calculateCruisePerformance sampleCruiseTable
        (CruiseInputs.mk 0 15 1013.25 .rpm none none (some 0)) false =
      Except.error ("RPM is required when input mode is RPM") := by
  exact ⟨rfl, by simp [calculateCruisePerformance]⟩

/-! ### C9: the debug flag never changes numeric results -/

/-- The numeric fields of a cruise result (everything except the debug
payload). -/
def cruiseNumerics (r : CruiseResults) : ℚ × ℚ × ℝ × ℝ × ℚ × ℚ × Option ℚ :=
  (r.pressureAltitude, r.densityAltitude, r.ktas, r.kias, r.fuelConsumption,
    r.powerPercent, r.rpm)

/-- C9.  Requesting the debug trace changes no numeric output: for every
dataset and input, `calculatePerformance`, `calculateTakeoffRateOfClimb` and
`calculateCruisePerformance` produce identical numeric result fields with the
debug flag on and off (the flag only governs the attached snapshot). -/
theorem c9_debug_invariance (takeoffData landingData : PerformanceData)
    (rocData : RateOfClimbData) (cruiseData : CruisePerformanceData)
    (inputs : CalculationInputs) (calculationType : CalculationType)
    (rocInputs : RateOfClimbInputs) (cruiseInputs : CruiseInputs) :
    ((calculatePerformance takeoffData landingData inputs calculationType true).pressureAltitude
        = (calculatePerformance takeoffData landingData inputs calculationType
          false).pressureAltitude ∧
      (calculatePerformance takeoffData landingData inputs calculationType true).windComponents
        = (calculatePerformance takeoffData landingData inputs calculationType
          false).windComponents ∧
      (calculatePerformance takeoffData landingData inputs calculationType true).groundRoll
        = (calculatePerformance takeoffData landingData inputs calculationType
          false).groundRoll ∧
      (calculatePerformance takeoffData landingData inputs calculationType true).over50ft
        = (calculatePerformance takeoffData landingData inputs calculationType
          false).over50ft ∧
      (calculatePerformance takeoffData landingData inputs calculationType true).baseGroundRoll
        = (calculatePerformance takeoffData landingData inputs calculationType
          false).baseGroundRoll ∧
      (calculatePerformance takeoffData landingData inputs calculationType true).baseOver50ft
        = (calculatePerformance takeoffData landingData inputs calculationType
          false).baseOver50ft) ∧
    ((calculateTakeoffRateOfClimb rocData rocInputs true).pressureAltitude
        = (calculateTakeoffRateOfClimb rocData rocInputs false).pressureAltitude ∧
      (calculateTakeoffRateOfClimb rocData rocInputs true).rateOfClimb
        = (calculateTakeoffRateOfClimb rocData rocInputs false).rateOfClimb ∧
      (calculateTakeoffRateOfClimb rocData rocInputs true).baseRateOfClimb
        = (calculateTakeoffRateOfClimb rocData rocInputs false).baseRateOfClimb ∧
      (calculateTakeoffRateOfClimb rocData rocInputs true).climbSpeed
        = (calculateTakeoffRateOfClimb rocData rocInputs false).climbSpeed) ∧
    Except.map cruiseNumerics (calculateCruisePerformance cruiseData cruiseInputs true)
      = Except.map cruiseNumerics (calculateCruisePerformance cruiseData cruiseInputs false) := by
  refine ⟨⟨rfl, rfl, rfl, rfl, rfl, rfl⟩, ⟨rfl, rfl, rfl, rfl⟩, ?_⟩
  cases hm : cruiseInputs.inputMode <;>
    simp only [calculateCruisePerformance, hm] <;>
    split_ifs with h <;> simp [Except.map, cruiseNumerics]

end Tecnam
